import Mathlib

/-!
# Verification of the BLAKE-256 / BLAKE-224 implementation

A shallow embedding of the Go package `blake256`. Machine integers are
modelled as `Nat` with explicit reduction modulo `2^32` (words) and `2^64`
(the bit counter); byte buffers are `List Nat`. Each definition transcribes
the corresponding Go function; the fourteen unrolled rounds of `block` are
transcribed statement for statement.
-/

set_option maxRecDepth 100000

namespace Blake256

/-- 2^32, the modulus of 32-bit machine arithmetic. -/
def M32 : Nat := 4294967296

/-- 2^64, the modulus of 64-bit machine arithmetic. -/
def M64 : Nat := 18446744073709551616

/-- 32-bit wrapping addition. -/
def add32 (a b : Nat) : Nat := (a + b) % M32

/-- Rotate a 32-bit word right by 16 (`x<<(32-16) | x>>16` in the source). -/
def rot16 (x : Nat) : Nat := ((x <<< (32 - 16)) % M32) ||| (x >>> 16)

/-- Rotate a 32-bit word right by 12 (`x<<(32-12) | x>>12` in the source). -/
def rot12 (x : Nat) : Nat := ((x <<< (32 - 12)) % M32) ||| (x >>> 12)

/-- Rotate a 32-bit word right by 8 (`x<<(32-8) | x>>8` in the source). -/
def rot8 (x : Nat) : Nat := ((x <<< (32 - 8)) % M32) ||| (x >>> 8)

/-- Rotate a 32-bit word right by 7 (`x<<(32-7) | x>>7` in the source). -/
def rot7 (x : Nat) : Nat := ((x <<< (32 - 7)) % M32) ||| (x >>> 7)

/-- The sixteen round constants `cst0`–`cst15` from the source. -/
def cst : Nat → Nat
  | 0 => 0x243F6A88
  | 1 => 0x85A308D3
  | 2 => 0x13198A2E
  | 3 => 0x03707344
  | 4 => 0xA4093822
  | 5 => 0x299F31D0
  | 6 => 0x082EFA98
  | 7 => 0xEC4E6C89
  | 8 => 0x452821E6
  | 9 => 0x38D01377
  | 10 => 0xBE5466CF
  | 11 => 0x34E90C6C
  | 12 => 0xC0AC29B7
  | 13 => 0xC97C50DD
  | 14 => 0x3F84D5B5
  | 15 => 0xB5470917
  | _ => 0

/-- The 16-word working state of the compression function. -/
structure V16 where
  v0 : Nat
  v1 : Nat
  v2 : Nat
  v3 : Nat
  v4 : Nat
  v5 : Nat
  v6 : Nat
  v7 : Nat
  v8 : Nat
  v9 : Nat
  v10 : Nat
  v11 : Nat
  v12 : Nat
  v13 : Nat
  v14 : Nat
  v15 : Nat
  deriving DecidableEq
/-- Round 1 of the unrolled `block` function, transcribed statement-for-statement
from the Go source. -/
def round1 (m : Nat → Nat) (v : V16) : V16 :=
  let v0 := v.v0
  let v1 := v.v1
  let v2 := v.v2
  let v3 := v.v3
  let v4 := v.v4
  let v5 := v.v5
  let v6 := v.v6
  let v7 := v.v7
  let v8 := v.v8
  let v9 := v.v9
  let v10 := v.v10
  let v11 := v.v11
  let v12 := v.v12
  let v13 := v.v13
  let v14 := v.v14
  let v15 := v.v15
  let v0 := add32 v0 ((m 0) ^^^ cst 1)
  let v0 := add32 v0 v4
  let v12 := v12 ^^^ v0
  let v12 := rot16 v12
  let v8 := add32 v8 v12
  let v4 := v4 ^^^ v8
  let v4 := rot12 v4
  let v1 := add32 v1 ((m 2) ^^^ cst 3)
  let v1 := add32 v1 v5
  let v13 := v13 ^^^ v1
  let v13 := rot16 v13
  let v9 := add32 v9 v13
  let v5 := v5 ^^^ v9
  let v5 := rot12 v5
  let v2 := add32 v2 ((m 4) ^^^ cst 5)
  let v2 := add32 v2 v6
  let v14 := v14 ^^^ v2
  let v14 := rot16 v14
  let v10 := add32 v10 v14
  let v6 := v6 ^^^ v10
  let v6 := rot12 v6
  let v3 := add32 v3 ((m 6) ^^^ cst 7)
  let v3 := add32 v3 v7
  let v15 := v15 ^^^ v3
  let v15 := rot16 v15
  let v11 := add32 v11 v15
  let v7 := v7 ^^^ v11
  let v7 := rot12 v7
  let v2 := add32 v2 ((m 5) ^^^ cst 4)
  let v2 := add32 v2 v6
  let v14 := v14 ^^^ v2
  let v14 := rot8 v14
  let v10 := add32 v10 v14
  let v6 := v6 ^^^ v10
  let v6 := rot7 v6
  let v3 := add32 v3 ((m 7) ^^^ cst 6)
  let v3 := add32 v3 v7
  let v15 := v15 ^^^ v3
  let v15 := rot8 v15
  let v11 := add32 v11 v15
  let v7 := v7 ^^^ v11
  let v7 := rot7 v7
  let v1 := add32 v1 ((m 3) ^^^ cst 2)
  let v1 := add32 v1 v5
  let v13 := v13 ^^^ v1
  let v13 := rot8 v13
  let v9 := add32 v9 v13
  let v5 := v5 ^^^ v9
  let v5 := rot7 v5
  let v0 := add32 v0 ((m 1) ^^^ cst 0)
  let v0 := add32 v0 v4
  let v12 := v12 ^^^ v0
  let v12 := rot8 v12
  let v8 := add32 v8 v12
  let v4 := v4 ^^^ v8
  let v4 := rot7 v4
  let v0 := add32 v0 ((m 8) ^^^ cst 9)
  let v0 := add32 v0 v5
  let v15 := v15 ^^^ v0
  let v15 := rot16 v15
  let v10 := add32 v10 v15
  let v5 := v5 ^^^ v10
  let v5 := rot12 v5
  let v1 := add32 v1 ((m 10) ^^^ cst 11)
  let v1 := add32 v1 v6
  let v12 := v12 ^^^ v1
  let v12 := rot16 v12
  let v11 := add32 v11 v12
  let v6 := v6 ^^^ v11
  let v6 := rot12 v6
  let v2 := add32 v2 ((m 12) ^^^ cst 13)
  let v2 := add32 v2 v7
  let v13 := v13 ^^^ v2
  let v13 := rot16 v13
  let v8 := add32 v8 v13
  let v7 := v7 ^^^ v8
  let v7 := rot12 v7
  let v3 := add32 v3 ((m 14) ^^^ cst 15)
  let v3 := add32 v3 v4
  let v14 := v14 ^^^ v3
  let v14 := rot16 v14
  let v9 := add32 v9 v14
  let v4 := v4 ^^^ v9
  let v4 := rot12 v4
  let v2 := add32 v2 ((m 13) ^^^ cst 12)
  let v2 := add32 v2 v7
  let v13 := v13 ^^^ v2
  let v13 := rot8 v13
  let v8 := add32 v8 v13
  let v7 := v7 ^^^ v8
  let v7 := rot7 v7
  let v3 := add32 v3 ((m 15) ^^^ cst 14)
  let v3 := add32 v3 v4
  let v14 := v14 ^^^ v3
  let v14 := rot8 v14
  let v9 := add32 v9 v14
  let v4 := v4 ^^^ v9
  let v4 := rot7 v4
  let v1 := add32 v1 ((m 11) ^^^ cst 10)
  let v1 := add32 v1 v6
  let v12 := v12 ^^^ v1
  let v12 := rot8 v12
  let v11 := add32 v11 v12
  let v6 := v6 ^^^ v11
  let v6 := rot7 v6
  let v0 := add32 v0 ((m 9) ^^^ cst 8)
  let v0 := add32 v0 v5
  let v15 := v15 ^^^ v0
  let v15 := rot8 v15
  let v10 := add32 v10 v15
  let v5 := v5 ^^^ v10
  let v5 := rot7 v5
  ⟨v0, v1, v2, v3, v4, v5, v6, v7, v8, v9, v10, v11, v12, v13, v14, v15⟩

/-- Round 2 of the unrolled `block` function, transcribed statement-for-statement
from the Go source. -/
def round2 (m : Nat → Nat) (v : V16) : V16 :=
  let v0 := v.v0
  let v1 := v.v1
  let v2 := v.v2
  let v3 := v.v3
  let v4 := v.v4
  let v5 := v.v5
  let v6 := v.v6
  let v7 := v.v7
  let v8 := v.v8
  let v9 := v.v9
  let v10 := v.v10
  let v11 := v.v11
  let v12 := v.v12
  let v13 := v.v13
  let v14 := v.v14
  let v15 := v.v15
  let v0 := add32 v0 ((m 14) ^^^ cst 10)
  let v0 := add32 v0 v4
  let v12 := v12 ^^^ v0
  let v12 := rot16 v12
  let v8 := add32 v8 v12
  let v4 := v4 ^^^ v8
  let v4 := rot12 v4
  let v1 := add32 v1 ((m 4) ^^^ cst 8)
  let v1 := add32 v1 v5
  let v13 := v13 ^^^ v1
  let v13 := rot16 v13
  let v9 := add32 v9 v13
  let v5 := v5 ^^^ v9
  let v5 := rot12 v5
  let v2 := add32 v2 ((m 9) ^^^ cst 15)
  let v2 := add32 v2 v6
  let v14 := v14 ^^^ v2
  let v14 := rot16 v14
  let v10 := add32 v10 v14
  let v6 := v6 ^^^ v10
  let v6 := rot12 v6
  let v3 := add32 v3 ((m 13) ^^^ cst 6)
  let v3 := add32 v3 v7
  let v15 := v15 ^^^ v3
  let v15 := rot16 v15
  let v11 := add32 v11 v15
  let v7 := v7 ^^^ v11
  let v7 := rot12 v7
  let v2 := add32 v2 ((m 15) ^^^ cst 9)
  let v2 := add32 v2 v6
  let v14 := v14 ^^^ v2
  let v14 := rot8 v14
  let v10 := add32 v10 v14
  let v6 := v6 ^^^ v10
  let v6 := rot7 v6
  let v3 := add32 v3 ((m 6) ^^^ cst 13)
  let v3 := add32 v3 v7
  let v15 := v15 ^^^ v3
  let v15 := rot8 v15
  let v11 := add32 v11 v15
  let v7 := v7 ^^^ v11
  let v7 := rot7 v7
  let v1 := add32 v1 ((m 8) ^^^ cst 4)
  let v1 := add32 v1 v5
  let v13 := v13 ^^^ v1
  let v13 := rot8 v13
  let v9 := add32 v9 v13
  let v5 := v5 ^^^ v9
  let v5 := rot7 v5
  let v0 := add32 v0 ((m 10) ^^^ cst 14)
  let v0 := add32 v0 v4
  let v12 := v12 ^^^ v0
  let v12 := rot8 v12
  let v8 := add32 v8 v12
  let v4 := v4 ^^^ v8
  let v4 := rot7 v4
  let v0 := add32 v0 ((m 1) ^^^ cst 12)
  let v0 := add32 v0 v5
  let v15 := v15 ^^^ v0
  let v15 := rot16 v15
  let v10 := add32 v10 v15
  let v5 := v5 ^^^ v10
  let v5 := rot12 v5
  let v1 := add32 v1 ((m 0) ^^^ cst 2)
  let v1 := add32 v1 v6
  let v12 := v12 ^^^ v1
  let v12 := rot16 v12
  let v11 := add32 v11 v12
  let v6 := v6 ^^^ v11
  let v6 := rot12 v6
  let v2 := add32 v2 ((m 11) ^^^ cst 7)
  let v2 := add32 v2 v7
  let v13 := v13 ^^^ v2
  let v13 := rot16 v13
  let v8 := add32 v8 v13
  let v7 := v7 ^^^ v8
  let v7 := rot12 v7
  let v3 := add32 v3 ((m 5) ^^^ cst 3)
  let v3 := add32 v3 v4
  let v14 := v14 ^^^ v3
  let v14 := rot16 v14
  let v9 := add32 v9 v14
  let v4 := v4 ^^^ v9
  let v4 := rot12 v4
  let v2 := add32 v2 ((m 7) ^^^ cst 11)
  let v2 := add32 v2 v7
  let v13 := v13 ^^^ v2
  let v13 := rot8 v13
  let v8 := add32 v8 v13
  let v7 := v7 ^^^ v8
  let v7 := rot7 v7
  let v3 := add32 v3 ((m 3) ^^^ cst 5)
  let v3 := add32 v3 v4
  let v14 := v14 ^^^ v3
  let v14 := rot8 v14
  let v9 := add32 v9 v14
  let v4 := v4 ^^^ v9
  let v4 := rot7 v4
  let v1 := add32 v1 ((m 2) ^^^ cst 0)
  let v1 := add32 v1 v6
  let v12 := v12 ^^^ v1
  let v12 := rot8 v12
  let v11 := add32 v11 v12
  let v6 := v6 ^^^ v11
  let v6 := rot7 v6
  let v0 := add32 v0 ((m 12) ^^^ cst 1)
  let v0 := add32 v0 v5
  let v15 := v15 ^^^ v0
  let v15 := rot8 v15
  let v10 := add32 v10 v15
  let v5 := v5 ^^^ v10
  let v5 := rot7 v5
  ⟨v0, v1, v2, v3, v4, v5, v6, v7, v8, v9, v10, v11, v12, v13, v14, v15⟩

/-- Round 3 of the unrolled `block` function, transcribed statement-for-statement
from the Go source. -/
def round3 (m : Nat → Nat) (v : V16) : V16 :=
  let v0 := v.v0
  let v1 := v.v1
  let v2 := v.v2
  let v3 := v.v3
  let v4 := v.v4
  let v5 := v.v5
  let v6 := v.v6
  let v7 := v.v7
  let v8 := v.v8
  let v9 := v.v9
  let v10 := v.v10
  let v11 := v.v11
  let v12 := v.v12
  let v13 := v.v13
  let v14 := v.v14
  let v15 := v.v15
  let v0 := add32 v0 ((m 11) ^^^ cst 8)
  let v0 := add32 v0 v4
  let v12 := v12 ^^^ v0
  let v12 := rot16 v12
  let v8 := add32 v8 v12
  let v4 := v4 ^^^ v8
  let v4 := rot12 v4
  let v1 := add32 v1 ((m 12) ^^^ cst 0)
  let v1 := add32 v1 v5
  let v13 := v13 ^^^ v1
  let v13 := rot16 v13
  let v9 := add32 v9 v13
  let v5 := v5 ^^^ v9
  let v5 := rot12 v5
  let v2 := add32 v2 ((m 5) ^^^ cst 2)
  let v2 := add32 v2 v6
  let v14 := v14 ^^^ v2
  let v14 := rot16 v14
  let v10 := add32 v10 v14
  let v6 := v6 ^^^ v10
  let v6 := rot12 v6
  let v3 := add32 v3 ((m 15) ^^^ cst 13)
  let v3 := add32 v3 v7
  let v15 := v15 ^^^ v3
  let v15 := rot16 v15
  let v11 := add32 v11 v15
  let v7 := v7 ^^^ v11
  let v7 := rot12 v7
  let v2 := add32 v2 ((m 2) ^^^ cst 5)
  let v2 := add32 v2 v6
  let v14 := v14 ^^^ v2
  let v14 := rot8 v14
  let v10 := add32 v10 v14
  let v6 := v6 ^^^ v10
  let v6 := rot7 v6
  let v3 := add32 v3 ((m 13) ^^^ cst 15)
  let v3 := add32 v3 v7
  let v15 := v15 ^^^ v3
  let v15 := rot8 v15
  let v11 := add32 v11 v15
  let v7 := v7 ^^^ v11
  let v7 := rot7 v7
  let v1 := add32 v1 ((m 0) ^^^ cst 12)
  let v1 := add32 v1 v5
  let v13 := v13 ^^^ v1
  let v13 := rot8 v13
  let v9 := add32 v9 v13
  let v5 := v5 ^^^ v9
  let v5 := rot7 v5
  let v0 := add32 v0 ((m 8) ^^^ cst 11)
  let v0 := add32 v0 v4
  let v12 := v12 ^^^ v0
  let v12 := rot8 v12
  let v8 := add32 v8 v12
  let v4 := v4 ^^^ v8
  let v4 := rot7 v4
  let v0 := add32 v0 ((m 10) ^^^ cst 14)
  let v0 := add32 v0 v5
  let v15 := v15 ^^^ v0
  let v15 := rot16 v15
  let v10 := add32 v10 v15
  let v5 := v5 ^^^ v10
  let v5 := rot12 v5
  let v1 := add32 v1 ((m 3) ^^^ cst 6)
  let v1 := add32 v1 v6
  let v12 := v12 ^^^ v1
  let v12 := rot16 v12
  let v11 := add32 v11 v12
  let v6 := v6 ^^^ v11
  let v6 := rot12 v6
  let v2 := add32 v2 ((m 7) ^^^ cst 1)
  let v2 := add32 v2 v7
  let v13 := v13 ^^^ v2
  let v13 := rot16 v13
  let v8 := add32 v8 v13
  let v7 := v7 ^^^ v8
  let v7 := rot12 v7
  let v3 := add32 v3 ((m 9) ^^^ cst 4)
  let v3 := add32 v3 v4
  let v14 := v14 ^^^ v3
  let v14 := rot16 v14
  let v9 := add32 v9 v14
  let v4 := v4 ^^^ v9
  let v4 := rot12 v4
  let v2 := add32 v2 ((m 1) ^^^ cst 7)
  let v2 := add32 v2 v7
  let v13 := v13 ^^^ v2
  let v13 := rot8 v13
  let v8 := add32 v8 v13
  let v7 := v7 ^^^ v8
  let v7 := rot7 v7
  let v3 := add32 v3 ((m 4) ^^^ cst 9)
  let v3 := add32 v3 v4
  let v14 := v14 ^^^ v3
  let v14 := rot8 v14
  let v9 := add32 v9 v14
  let v4 := v4 ^^^ v9
  let v4 := rot7 v4
  let v1 := add32 v1 ((m 6) ^^^ cst 3)
  let v1 := add32 v1 v6
  let v12 := v12 ^^^ v1
  let v12 := rot8 v12
  let v11 := add32 v11 v12
  let v6 := v6 ^^^ v11
  let v6 := rot7 v6
  let v0 := add32 v0 ((m 14) ^^^ cst 10)
  let v0 := add32 v0 v5
  let v15 := v15 ^^^ v0
  let v15 := rot8 v15
  let v10 := add32 v10 v15
  let v5 := v5 ^^^ v10
  let v5 := rot7 v5
  ⟨v0, v1, v2, v3, v4, v5, v6, v7, v8, v9, v10, v11, v12, v13, v14, v15⟩

/-- Round 4 of the unrolled `block` function, transcribed statement-for-statement
from the Go source. -/
def round4 (m : Nat → Nat) (v : V16) : V16 :=
  let v0 := v.v0
  let v1 := v.v1
  let v2 := v.v2
  let v3 := v.v3
  let v4 := v.v4
  let v5 := v.v5
  let v6 := v.v6
  let v7 := v.v7
  let v8 := v.v8
  let v9 := v.v9
  let v10 := v.v10
  let v11 := v.v11
  let v12 := v.v12
  let v13 := v.v13
  let v14 := v.v14
  let v15 := v.v15
  let v0 := add32 v0 ((m 7) ^^^ cst 9)
  let v0 := add32 v0 v4
  let v12 := v12 ^^^ v0
  let v12 := rot16 v12
  let v8 := add32 v8 v12
  let v4 := v4 ^^^ v8
  let v4 := rot12 v4
  let v1 := add32 v1 ((m 3) ^^^ cst 1)
  let v1 := add32 v1 v5
  let v13 := v13 ^^^ v1
  let v13 := rot16 v13
  let v9 := add32 v9 v13
  let v5 := v5 ^^^ v9
  let v5 := rot12 v5
  let v2 := add32 v2 ((m 13) ^^^ cst 12)
  let v2 := add32 v2 v6
  let v14 := v14 ^^^ v2
  let v14 := rot16 v14
  let v10 := add32 v10 v14
  let v6 := v6 ^^^ v10
  let v6 := rot12 v6
  let v3 := add32 v3 ((m 11) ^^^ cst 14)
  let v3 := add32 v3 v7
  let v15 := v15 ^^^ v3
  let v15 := rot16 v15
  let v11 := add32 v11 v15
  let v7 := v7 ^^^ v11
  let v7 := rot12 v7
  let v2 := add32 v2 ((m 12) ^^^ cst 13)
  let v2 := add32 v2 v6
  let v14 := v14 ^^^ v2
  let v14 := rot8 v14
  let v10 := add32 v10 v14
  let v6 := v6 ^^^ v10
  let v6 := rot7 v6
  let v3 := add32 v3 ((m 14) ^^^ cst 11)
  let v3 := add32 v3 v7
  let v15 := v15 ^^^ v3
  let v15 := rot8 v15
  let v11 := add32 v11 v15
  let v7 := v7 ^^^ v11
  let v7 := rot7 v7
  let v1 := add32 v1 ((m 1) ^^^ cst 3)
  let v1 := add32 v1 v5
  let v13 := v13 ^^^ v1
  let v13 := rot8 v13
  let v9 := add32 v9 v13
  let v5 := v5 ^^^ v9
  let v5 := rot7 v5
  let v0 := add32 v0 ((m 9) ^^^ cst 7)
  let v0 := add32 v0 v4
  let v12 := v12 ^^^ v0
  let v12 := rot8 v12
  let v8 := add32 v8 v12
  let v4 := v4 ^^^ v8
  let v4 := rot7 v4
  let v0 := add32 v0 ((m 2) ^^^ cst 6)
  let v0 := add32 v0 v5
  let v15 := v15 ^^^ v0
  let v15 := rot16 v15
  let v10 := add32 v10 v15
  let v5 := v5 ^^^ v10
  let v5 := rot12 v5
  let v1 := add32 v1 ((m 5) ^^^ cst 10)
  let v1 := add32 v1 v6
  let v12 := v12 ^^^ v1
  let v12 := rot16 v12
  let v11 := add32 v11 v12
  let v6 := v6 ^^^ v11
  let v6 := rot12 v6
  let v2 := add32 v2 ((m 4) ^^^ cst 0)
  let v2 := add32 v2 v7
  let v13 := v13 ^^^ v2
  let v13 := rot16 v13
  let v8 := add32 v8 v13
  let v7 := v7 ^^^ v8
  let v7 := rot12 v7
  let v3 := add32 v3 ((m 15) ^^^ cst 8)
  let v3 := add32 v3 v4
  let v14 := v14 ^^^ v3
  let v14 := rot16 v14
  let v9 := add32 v9 v14
  let v4 := v4 ^^^ v9
  let v4 := rot12 v4
  let v2 := add32 v2 ((m 0) ^^^ cst 4)
  let v2 := add32 v2 v7
  let v13 := v13 ^^^ v2
  let v13 := rot8 v13
  let v8 := add32 v8 v13
  let v7 := v7 ^^^ v8
  let v7 := rot7 v7
  let v3 := add32 v3 ((m 8) ^^^ cst 15)
  let v3 := add32 v3 v4
  let v14 := v14 ^^^ v3
  let v14 := rot8 v14
  let v9 := add32 v9 v14
  let v4 := v4 ^^^ v9
  let v4 := rot7 v4
  let v1 := add32 v1 ((m 10) ^^^ cst 5)
  let v1 := add32 v1 v6
  let v12 := v12 ^^^ v1
  let v12 := rot8 v12
  let v11 := add32 v11 v12
  let v6 := v6 ^^^ v11
  let v6 := rot7 v6
  let v0 := add32 v0 ((m 6) ^^^ cst 2)
  let v0 := add32 v0 v5
  let v15 := v15 ^^^ v0
  let v15 := rot8 v15
  let v10 := add32 v10 v15
  let v5 := v5 ^^^ v10
  let v5 := rot7 v5
  ⟨v0, v1, v2, v3, v4, v5, v6, v7, v8, v9, v10, v11, v12, v13, v14, v15⟩

/-- Round 5 of the unrolled `block` function, transcribed statement-for-statement
from the Go source. -/
def round5 (m : Nat → Nat) (v : V16) : V16 :=
  let v0 := v.v0
  let v1 := v.v1
  let v2 := v.v2
  let v3 := v.v3
  let v4 := v.v4
  let v5 := v.v5
  let v6 := v.v6
  let v7 := v.v7
  let v8 := v.v8
  let v9 := v.v9
  let v10 := v.v10
  let v11 := v.v11
  let v12 := v.v12
  let v13 := v.v13
  let v14 := v.v14
  let v15 := v.v15
  let v0 := add32 v0 ((m 9) ^^^ cst 0)
  let v0 := add32 v0 v4
  let v12 := v12 ^^^ v0
  let v12 := rot16 v12
  let v8 := add32 v8 v12
  let v4 := v4 ^^^ v8
  let v4 := rot12 v4
  let v1 := add32 v1 ((m 5) ^^^ cst 7)
  let v1 := add32 v1 v5
  let v13 := v13 ^^^ v1
  let v13 := rot16 v13
  let v9 := add32 v9 v13
  let v5 := v5 ^^^ v9
  let v5 := rot12 v5
  let v2 := add32 v2 ((m 2) ^^^ cst 4)
  let v2 := add32 v2 v6
  let v14 := v14 ^^^ v2
  let v14 := rot16 v14
  let v10 := add32 v10 v14
  let v6 := v6 ^^^ v10
  let v6 := rot12 v6
  let v3 := add32 v3 ((m 10) ^^^ cst 15)
  let v3 := add32 v3 v7
  let v15 := v15 ^^^ v3
  let v15 := rot16 v15
  let v11 := add32 v11 v15
  let v7 := v7 ^^^ v11
  let v7 := rot12 v7
  let v2 := add32 v2 ((m 4) ^^^ cst 2)
  let v2 := add32 v2 v6
  let v14 := v14 ^^^ v2
  let v14 := rot8 v14
  let v10 := add32 v10 v14
  let v6 := v6 ^^^ v10
  let v6 := rot7 v6
  let v3 := add32 v3 ((m 15) ^^^ cst 10)
  let v3 := add32 v3 v7
  let v15 := v15 ^^^ v3
  let v15 := rot8 v15
  let v11 := add32 v11 v15
  let v7 := v7 ^^^ v11
  let v7 := rot7 v7
  let v1 := add32 v1 ((m 7) ^^^ cst 5)
  let v1 := add32 v1 v5
  let v13 := v13 ^^^ v1
  let v13 := rot8 v13
  let v9 := add32 v9 v13
  let v5 := v5 ^^^ v9
  let v5 := rot7 v5
  let v0 := add32 v0 ((m 0) ^^^ cst 9)
  let v0 := add32 v0 v4
  let v12 := v12 ^^^ v0
  let v12 := rot8 v12
  let v8 := add32 v8 v12
  let v4 := v4 ^^^ v8
  let v4 := rot7 v4
  let v0 := add32 v0 ((m 14) ^^^ cst 1)
  let v0 := add32 v0 v5
  let v15 := v15 ^^^ v0
  let v15 := rot16 v15
  let v10 := add32 v10 v15
  let v5 := v5 ^^^ v10
  let v5 := rot12 v5
  let v1 := add32 v1 ((m 11) ^^^ cst 12)
  let v1 := add32 v1 v6
  let v12 := v12 ^^^ v1
  let v12 := rot16 v12
  let v11 := add32 v11 v12
  let v6 := v6 ^^^ v11
  let v6 := rot12 v6
  let v2 := add32 v2 ((m 6) ^^^ cst 8)
  let v2 := add32 v2 v7
  let v13 := v13 ^^^ v2
  let v13 := rot16 v13
  let v8 := add32 v8 v13
  let v7 := v7 ^^^ v8
  let v7 := rot12 v7
  let v3 := add32 v3 ((m 3) ^^^ cst 13)
  let v3 := add32 v3 v4
  let v14 := v14 ^^^ v3
  let v14 := rot16 v14
  let v9 := add32 v9 v14
  let v4 := v4 ^^^ v9
  let v4 := rot12 v4
  let v2 := add32 v2 ((m 8) ^^^ cst 6)
  let v2 := add32 v2 v7
  let v13 := v13 ^^^ v2
  let v13 := rot8 v13
  let v8 := add32 v8 v13
  let v7 := v7 ^^^ v8
  let v7 := rot7 v7
  let v3 := add32 v3 ((m 13) ^^^ cst 3)
  let v3 := add32 v3 v4
  let v14 := v14 ^^^ v3
  let v14 := rot8 v14
  let v9 := add32 v9 v14
  let v4 := v4 ^^^ v9
  let v4 := rot7 v4
  let v1 := add32 v1 ((m 12) ^^^ cst 11)
  let v1 := add32 v1 v6
  let v12 := v12 ^^^ v1
  let v12 := rot8 v12
  let v11 := add32 v11 v12
  let v6 := v6 ^^^ v11
  let v6 := rot7 v6
  let v0 := add32 v0 ((m 1) ^^^ cst 14)
  let v0 := add32 v0 v5
  let v15 := v15 ^^^ v0
  let v15 := rot8 v15
  let v10 := add32 v10 v15
  let v5 := v5 ^^^ v10
  let v5 := rot7 v5
  ⟨v0, v1, v2, v3, v4, v5, v6, v7, v8, v9, v10, v11, v12, v13, v14, v15⟩

/-- Round 6 of the unrolled `block` function, transcribed statement-for-statement
from the Go source. -/
def round6 (m : Nat → Nat) (v : V16) : V16 :=
  let v0 := v.v0
  let v1 := v.v1
  let v2 := v.v2
  let v3 := v.v3
  let v4 := v.v4
  let v5 := v.v5
  let v6 := v.v6
  let v7 := v.v7
  let v8 := v.v8
  let v9 := v.v9
  let v10 := v.v10
  let v11 := v.v11
  let v12 := v.v12
  let v13 := v.v13
  let v14 := v.v14
  let v15 := v.v15
  let v0 := add32 v0 ((m 2) ^^^ cst 12)
  let v0 := add32 v0 v4
  let v12 := v12 ^^^ v0
  let v12 := rot16 v12
  let v8 := add32 v8 v12
  let v4 := v4 ^^^ v8
  let v4 := rot12 v4
  let v1 := add32 v1 ((m 6) ^^^ cst 10)
  let v1 := add32 v1 v5
  let v13 := v13 ^^^ v1
  let v13 := rot16 v13
  let v9 := add32 v9 v13
  let v5 := v5 ^^^ v9
  let v5 := rot12 v5
  let v2 := add32 v2 ((m 0) ^^^ cst 11)
  let v2 := add32 v2 v6
  let v14 := v14 ^^^ v2
  let v14 := rot16 v14
  let v10 := add32 v10 v14
  let v6 := v6 ^^^ v10
  let v6 := rot12 v6
  let v3 := add32 v3 ((m 8) ^^^ cst 3)
  let v3 := add32 v3 v7
  let v15 := v15 ^^^ v3
  let v15 := rot16 v15
  let v11 := add32 v11 v15
  let v7 := v7 ^^^ v11
  let v7 := rot12 v7
  let v2 := add32 v2 ((m 11) ^^^ cst 0)
  let v2 := add32 v2 v6
  let v14 := v14 ^^^ v2
  let v14 := rot8 v14
  let v10 := add32 v10 v14
  let v6 := v6 ^^^ v10
  let v6 := rot7 v6
  let v3 := add32 v3 ((m 3) ^^^ cst 8)
  let v3 := add32 v3 v7
  let v15 := v15 ^^^ v3
  let v15 := rot8 v15
  let v11 := add32 v11 v15
  let v7 := v7 ^^^ v11
  let v7 := rot7 v7
  let v1 := add32 v1 ((m 10) ^^^ cst 6)
  let v1 := add32 v1 v5
  let v13 := v13 ^^^ v1
  let v13 := rot8 v13
  let v9 := add32 v9 v13
  let v5 := v5 ^^^ v9
  let v5 := rot7 v5
  let v0 := add32 v0 ((m 12) ^^^ cst 2)
  let v0 := add32 v0 v4
  let v12 := v12 ^^^ v0
  let v12 := rot8 v12
  let v8 := add32 v8 v12
  let v4 := v4 ^^^ v8
  let v4 := rot7 v4
  let v0 := add32 v0 ((m 4) ^^^ cst 13)
  let v0 := add32 v0 v5
  let v15 := v15 ^^^ v0
  let v15 := rot16 v15
  let v10 := add32 v10 v15
  let v5 := v5 ^^^ v10
  let v5 := rot12 v5
  let v1 := add32 v1 ((m 7) ^^^ cst 5)
  let v1 := add32 v1 v6
  let v12 := v12 ^^^ v1
  let v12 := rot16 v12
  let v11 := add32 v11 v12
  let v6 := v6 ^^^ v11
  let v6 := rot12 v6
  let v2 := add32 v2 ((m 15) ^^^ cst 14)
  let v2 := add32 v2 v7
  let v13 := v13 ^^^ v2
  let v13 := rot16 v13
  let v8 := add32 v8 v13
  let v7 := v7 ^^^ v8
  let v7 := rot12 v7
  let v3 := add32 v3 ((m 1) ^^^ cst 9)
  let v3 := add32 v3 v4
  let v14 := v14 ^^^ v3
  let v14 := rot16 v14
  let v9 := add32 v9 v14
  let v4 := v4 ^^^ v9
  let v4 := rot12 v4
  let v2 := add32 v2 ((m 14) ^^^ cst 15)
  let v2 := add32 v2 v7
  let v13 := v13 ^^^ v2
  let v13 := rot8 v13
  let v8 := add32 v8 v13
  let v7 := v7 ^^^ v8
  let v7 := rot7 v7
  let v3 := add32 v3 ((m 9) ^^^ cst 1)
  let v3 := add32 v3 v4
  let v14 := v14 ^^^ v3
  let v14 := rot8 v14
  let v9 := add32 v9 v14
  let v4 := v4 ^^^ v9
  let v4 := rot7 v4
  let v1 := add32 v1 ((m 5) ^^^ cst 7)
  let v1 := add32 v1 v6
  let v12 := v12 ^^^ v1
  let v12 := rot8 v12
  let v11 := add32 v11 v12
  let v6 := v6 ^^^ v11
  let v6 := rot7 v6
  let v0 := add32 v0 ((m 13) ^^^ cst 4)
  let v0 := add32 v0 v5
  let v15 := v15 ^^^ v0
  let v15 := rot8 v15
  let v10 := add32 v10 v15
  let v5 := v5 ^^^ v10
  let v5 := rot7 v5
  ⟨v0, v1, v2, v3, v4, v5, v6, v7, v8, v9, v10, v11, v12, v13, v14, v15⟩

/-- Round 7 of the unrolled `block` function, transcribed statement-for-statement
from the Go source. -/
def round7 (m : Nat → Nat) (v : V16) : V16 :=
  let v0 := v.v0
  let v1 := v.v1
  let v2 := v.v2
  let v3 := v.v3
  let v4 := v.v4
  let v5 := v.v5
  let v6 := v.v6
  let v7 := v.v7
  let v8 := v.v8
  let v9 := v.v9
  let v10 := v.v10
  let v11 := v.v11
  let v12 := v.v12
  let v13 := v.v13
  let v14 := v.v14
  let v15 := v.v15
  let v0 := add32 v0 ((m 12) ^^^ cst 5)
  let v0 := add32 v0 v4
  let v12 := v12 ^^^ v0
  let v12 := rot16 v12
  let v8 := add32 v8 v12
  let v4 := v4 ^^^ v8
  let v4 := rot12 v4
  let v1 := add32 v1 ((m 1) ^^^ cst 15)
  let v1 := add32 v1 v5
  let v13 := v13 ^^^ v1
  let v13 := rot16 v13
  let v9 := add32 v9 v13
  let v5 := v5 ^^^ v9
  let v5 := rot12 v5
  let v2 := add32 v2 ((m 14) ^^^ cst 13)
  let v2 := add32 v2 v6
  let v14 := v14 ^^^ v2
  let v14 := rot16 v14
  let v10 := add32 v10 v14
  let v6 := v6 ^^^ v10
  let v6 := rot12 v6
  let v3 := add32 v3 ((m 4) ^^^ cst 10)
  let v3 := add32 v3 v7
  let v15 := v15 ^^^ v3
  let v15 := rot16 v15
  let v11 := add32 v11 v15
  let v7 := v7 ^^^ v11
  let v7 := rot12 v7
  let v2 := add32 v2 ((m 13) ^^^ cst 14)
  let v2 := add32 v2 v6
  let v14 := v14 ^^^ v2
  let v14 := rot8 v14
  let v10 := add32 v10 v14
  let v6 := v6 ^^^ v10
  let v6 := rot7 v6
  let v3 := add32 v3 ((m 10) ^^^ cst 4)
  let v3 := add32 v3 v7
  let v15 := v15 ^^^ v3
  let v15 := rot8 v15
  let v11 := add32 v11 v15
  let v7 := v7 ^^^ v11
  let v7 := rot7 v7
  let v1 := add32 v1 ((m 15) ^^^ cst 1)
  let v1 := add32 v1 v5
  let v13 := v13 ^^^ v1
  let v13 := rot8 v13
  let v9 := add32 v9 v13
  let v5 := v5 ^^^ v9
  let v5 := rot7 v5
  let v0 := add32 v0 ((m 5) ^^^ cst 12)
  let v0 := add32 v0 v4
  let v12 := v12 ^^^ v0
  let v12 := rot8 v12
  let v8 := add32 v8 v12
  let v4 := v4 ^^^ v8
  let v4 := rot7 v4
  let v0 := add32 v0 ((m 0) ^^^ cst 7)
  let v0 := add32 v0 v5
  let v15 := v15 ^^^ v0
  let v15 := rot16 v15
  let v10 := add32 v10 v15
  let v5 := v5 ^^^ v10
  let v5 := rot12 v5
  let v1 := add32 v1 ((m 6) ^^^ cst 3)
  let v1 := add32 v1 v6
  let v12 := v12 ^^^ v1
  let v12 := rot16 v12
  let v11 := add32 v11 v12
  let v6 := v6 ^^^ v11
  let v6 := rot12 v6
  let v2 := add32 v2 ((m 9) ^^^ cst 2)
  let v2 := add32 v2 v7
  let v13 := v13 ^^^ v2
  let v13 := rot16 v13
  let v8 := add32 v8 v13
  let v7 := v7 ^^^ v8
  let v7 := rot12 v7
  let v3 := add32 v3 ((m 8) ^^^ cst 11)
  let v3 := add32 v3 v4
  let v14 := v14 ^^^ v3
  let v14 := rot16 v14
  let v9 := add32 v9 v14
  let v4 := v4 ^^^ v9
  let v4 := rot12 v4
  let v2 := add32 v2 ((m 2) ^^^ cst 9)
  let v2 := add32 v2 v7
  let v13 := v13 ^^^ v2
  let v13 := rot8 v13
  let v8 := add32 v8 v13
  let v7 := v7 ^^^ v8
  let v7 := rot7 v7
  let v3 := add32 v3 ((m 11) ^^^ cst 8)
  let v3 := add32 v3 v4
  let v14 := v14 ^^^ v3
  let v14 := rot8 v14
  let v9 := add32 v9 v14
  let v4 := v4 ^^^ v9
  let v4 := rot7 v4
  let v1 := add32 v1 ((m 3) ^^^ cst 6)
  let v1 := add32 v1 v6
  let v12 := v12 ^^^ v1
  let v12 := rot8 v12
  let v11 := add32 v11 v12
  let v6 := v6 ^^^ v11
  let v6 := rot7 v6
  let v0 := add32 v0 ((m 7) ^^^ cst 0)
  let v0 := add32 v0 v5
  let v15 := v15 ^^^ v0
  let v15 := rot8 v15
  let v10 := add32 v10 v15
  let v5 := v5 ^^^ v10
  let v5 := rot7 v5
  ⟨v0, v1, v2, v3, v4, v5, v6, v7, v8, v9, v10, v11, v12, v13, v14, v15⟩

/-- Round 8 of the unrolled `block` function, transcribed statement-for-statement
from the Go source. -/
def round8 (m : Nat → Nat) (v : V16) : V16 :=
  let v0 := v.v0
  let v1 := v.v1
  let v2 := v.v2
  let v3 := v.v3
  let v4 := v.v4
  let v5 := v.v5
  let v6 := v.v6
  let v7 := v.v7
  let v8 := v.v8
  let v9 := v.v9
  let v10 := v.v10
  let v11 := v.v11
  let v12 := v.v12
  let v13 := v.v13
  let v14 := v.v14
  let v15 := v.v15
  let v0 := add32 v0 ((m 13) ^^^ cst 11)
  let v0 := add32 v0 v4
  let v12 := v12 ^^^ v0
  let v12 := rot16 v12
  let v8 := add32 v8 v12
  let v4 := v4 ^^^ v8
  let v4 := rot12 v4
  let v1 := add32 v1 ((m 7) ^^^ cst 14)
  let v1 := add32 v1 v5
  let v13 := v13 ^^^ v1
  let v13 := rot16 v13
  let v9 := add32 v9 v13
  let v5 := v5 ^^^ v9
  let v5 := rot12 v5
  let v2 := add32 v2 ((m 12) ^^^ cst 1)
  let v2 := add32 v2 v6
  let v14 := v14 ^^^ v2
  let v14 := rot16 v14
  let v10 := add32 v10 v14
  let v6 := v6 ^^^ v10
  let v6 := rot12 v6
  let v3 := add32 v3 ((m 3) ^^^ cst 9)
  let v3 := add32 v3 v7
  let v15 := v15 ^^^ v3
  let v15 := rot16 v15
  let v11 := add32 v11 v15
  let v7 := v7 ^^^ v11
  let v7 := rot12 v7
  let v2 := add32 v2 ((m 1) ^^^ cst 12)
  let v2 := add32 v2 v6
  let v14 := v14 ^^^ v2
  let v14 := rot8 v14
  let v10 := add32 v10 v14
  let v6 := v6 ^^^ v10
  let v6 := rot7 v6
  let v3 := add32 v3 ((m 9) ^^^ cst 3)
  let v3 := add32 v3 v7
  let v15 := v15 ^^^ v3
  let v15 := rot8 v15
  let v11 := add32 v11 v15
  let v7 := v7 ^^^ v11
  let v7 := rot7 v7
  let v1 := add32 v1 ((m 14) ^^^ cst 7)
  let v1 := add32 v1 v5
  let v13 := v13 ^^^ v1
  let v13 := rot8 v13
  let v9 := add32 v9 v13
  let v5 := v5 ^^^ v9
  let v5 := rot7 v5
  let v0 := add32 v0 ((m 11) ^^^ cst 13)
  let v0 := add32 v0 v4
  let v12 := v12 ^^^ v0
  let v12 := rot8 v12
  let v8 := add32 v8 v12
  let v4 := v4 ^^^ v8
  let v4 := rot7 v4
  let v0 := add32 v0 ((m 5) ^^^ cst 0)
  let v0 := add32 v0 v5
  let v15 := v15 ^^^ v0
  let v15 := rot16 v15
  let v10 := add32 v10 v15
  let v5 := v5 ^^^ v10
  let v5 := rot12 v5
  let v1 := add32 v1 ((m 15) ^^^ cst 4)
  let v1 := add32 v1 v6
  let v12 := v12 ^^^ v1
  let v12 := rot16 v12
  let v11 := add32 v11 v12
  let v6 := v6 ^^^ v11
  let v6 := rot12 v6
  let v2 := add32 v2 ((m 8) ^^^ cst 6)
  let v2 := add32 v2 v7
  let v13 := v13 ^^^ v2
  let v13 := rot16 v13
  let v8 := add32 v8 v13
  let v7 := v7 ^^^ v8
  let v7 := rot12 v7
  let v3 := add32 v3 ((m 2) ^^^ cst 10)
  let v3 := add32 v3 v4
  let v14 := v14 ^^^ v3
  let v14 := rot16 v14
  let v9 := add32 v9 v14
  let v4 := v4 ^^^ v9
  let v4 := rot12 v4
  let v2 := add32 v2 ((m 6) ^^^ cst 8)
  let v2 := add32 v2 v7
  let v13 := v13 ^^^ v2
  let v13 := rot8 v13
  let v8 := add32 v8 v13
  let v7 := v7 ^^^ v8
  let v7 := rot7 v7
  let v3 := add32 v3 ((m 10) ^^^ cst 2)
  let v3 := add32 v3 v4
  let v14 := v14 ^^^ v3
  let v14 := rot8 v14
  let v9 := add32 v9 v14
  let v4 := v4 ^^^ v9
  let v4 := rot7 v4
  let v1 := add32 v1 ((m 4) ^^^ cst 15)
  let v1 := add32 v1 v6
  let v12 := v12 ^^^ v1
  let v12 := rot8 v12
  let v11 := add32 v11 v12
  let v6 := v6 ^^^ v11
  let v6 := rot7 v6
  let v0 := add32 v0 ((m 0) ^^^ cst 5)
  let v0 := add32 v0 v5
  let v15 := v15 ^^^ v0
  let v15 := rot8 v15
  let v10 := add32 v10 v15
  let v5 := v5 ^^^ v10
  let v5 := rot7 v5
  ⟨v0, v1, v2, v3, v4, v5, v6, v7, v8, v9, v10, v11, v12, v13, v14, v15⟩

/-- Round 9 of the unrolled `block` function, transcribed statement-for-statement
from the Go source. -/
def round9 (m : Nat → Nat) (v : V16) : V16 :=
  let v0 := v.v0
  let v1 := v.v1
  let v2 := v.v2
  let v3 := v.v3
  let v4 := v.v4
  let v5 := v.v5
  let v6 := v.v6
  let v7 := v.v7
  let v8 := v.v8
  let v9 := v.v9
  let v10 := v.v10
  let v11 := v.v11
  let v12 := v.v12
  let v13 := v.v13
  let v14 := v.v14
  let v15 := v.v15
  let v0 := add32 v0 ((m 6) ^^^ cst 15)
  let v0 := add32 v0 v4
  let v12 := v12 ^^^ v0
  let v12 := rot16 v12
  let v8 := add32 v8 v12
  let v4 := v4 ^^^ v8
  let v4 := rot12 v4
  let v1 := add32 v1 ((m 14) ^^^ cst 9)
  let v1 := add32 v1 v5
  let v13 := v13 ^^^ v1
  let v13 := rot16 v13
  let v9 := add32 v9 v13
  let v5 := v5 ^^^ v9
  let v5 := rot12 v5
  let v2 := add32 v2 ((m 11) ^^^ cst 3)
  let v2 := add32 v2 v6
  let v14 := v14 ^^^ v2
  let v14 := rot16 v14
  let v10 := add32 v10 v14
  let v6 := v6 ^^^ v10
  let v6 := rot12 v6
  let v3 := add32 v3 ((m 0) ^^^ cst 8)
  let v3 := add32 v3 v7
  let v15 := v15 ^^^ v3
  let v15 := rot16 v15
  let v11 := add32 v11 v15
  let v7 := v7 ^^^ v11
  let v7 := rot12 v7
  let v2 := add32 v2 ((m 3) ^^^ cst 11)
  let v2 := add32 v2 v6
  let v14 := v14 ^^^ v2
  let v14 := rot8 v14
  let v10 := add32 v10 v14
  let v6 := v6 ^^^ v10
  let v6 := rot7 v6
  let v3 := add32 v3 ((m 8) ^^^ cst 0)
  let v3 := add32 v3 v7
  let v15 := v15 ^^^ v3
  let v15 := rot8 v15
  let v11 := add32 v11 v15
  let v7 := v7 ^^^ v11
  let v7 := rot7 v7
  let v1 := add32 v1 ((m 9) ^^^ cst 14)
  let v1 := add32 v1 v5
  let v13 := v13 ^^^ v1
  let v13 := rot8 v13
  let v9 := add32 v9 v13
  let v5 := v5 ^^^ v9
  let v5 := rot7 v5
  let v0 := add32 v0 ((m 15) ^^^ cst 6)
  let v0 := add32 v0 v4
  let v12 := v12 ^^^ v0
  let v12 := rot8 v12
  let v8 := add32 v8 v12
  let v4 := v4 ^^^ v8
  let v4 := rot7 v4
  let v0 := add32 v0 ((m 12) ^^^ cst 2)
  let v0 := add32 v0 v5
  let v15 := v15 ^^^ v0
  let v15 := rot16 v15
  let v10 := add32 v10 v15
  let v5 := v5 ^^^ v10
  let v5 := rot12 v5
  let v1 := add32 v1 ((m 13) ^^^ cst 7)
  let v1 := add32 v1 v6
  let v12 := v12 ^^^ v1
  let v12 := rot16 v12
  let v11 := add32 v11 v12
  let v6 := v6 ^^^ v11
  let v6 := rot12 v6
  let v2 := add32 v2 ((m 1) ^^^ cst 4)
  let v2 := add32 v2 v7
  let v13 := v13 ^^^ v2
  let v13 := rot16 v13
  let v8 := add32 v8 v13
  let v7 := v7 ^^^ v8
  let v7 := rot12 v7
  let v3 := add32 v3 ((m 10) ^^^ cst 5)
  let v3 := add32 v3 v4
  let v14 := v14 ^^^ v3
  let v14 := rot16 v14
  let v9 := add32 v9 v14
  let v4 := v4 ^^^ v9
  let v4 := rot12 v4
  let v2 := add32 v2 ((m 4) ^^^ cst 1)
  let v2 := add32 v2 v7
  let v13 := v13 ^^^ v2
  let v13 := rot8 v13
  let v8 := add32 v8 v13
  let v7 := v7 ^^^ v8
  let v7 := rot7 v7
  let v3 := add32 v3 ((m 5) ^^^ cst 10)
  let v3 := add32 v3 v4
  let v14 := v14 ^^^ v3
  let v14 := rot8 v14
  let v9 := add32 v9 v14
  let v4 := v4 ^^^ v9
  let v4 := rot7 v4
  let v1 := add32 v1 ((m 7) ^^^ cst 13)
  let v1 := add32 v1 v6
  let v12 := v12 ^^^ v1
  let v12 := rot8 v12
  let v11 := add32 v11 v12
  let v6 := v6 ^^^ v11
  let v6 := rot7 v6
  let v0 := add32 v0 ((m 2) ^^^ cst 12)
  let v0 := add32 v0 v5
  let v15 := v15 ^^^ v0
  let v15 := rot8 v15
  let v10 := add32 v10 v15
  let v5 := v5 ^^^ v10
  let v5 := rot7 v5
  ⟨v0, v1, v2, v3, v4, v5, v6, v7, v8, v9, v10, v11, v12, v13, v14, v15⟩

/-- Round 10 of the unrolled `block` function, transcribed statement-for-statement
from the Go source. -/
def round10 (m : Nat → Nat) (v : V16) : V16 :=
  let v0 := v.v0
  let v1 := v.v1
  let v2 := v.v2
  let v3 := v.v3
  let v4 := v.v4
  let v5 := v.v5
  let v6 := v.v6
  let v7 := v.v7
  let v8 := v.v8
  let v9 := v.v9
  let v10 := v.v10
  let v11 := v.v11
  let v12 := v.v12
  let v13 := v.v13
  let v14 := v.v14
  let v15 := v.v15
  let v0 := add32 v0 ((m 10) ^^^ cst 2)
  let v0 := add32 v0 v4
  let v12 := v12 ^^^ v0
  let v12 := rot16 v12
  let v8 := add32 v8 v12
  let v4 := v4 ^^^ v8
  let v4 := rot12 v4
  let v1 := add32 v1 ((m 8) ^^^ cst 4)
  let v1 := add32 v1 v5
  let v13 := v13 ^^^ v1
  let v13 := rot16 v13
  let v9 := add32 v9 v13
  let v5 := v5 ^^^ v9
  let v5 := rot12 v5
  let v2 := add32 v2 ((m 7) ^^^ cst 6)
  let v2 := add32 v2 v6
  let v14 := v14 ^^^ v2
  let v14 := rot16 v14
  let v10 := add32 v10 v14
  let v6 := v6 ^^^ v10
  let v6 := rot12 v6
  let v3 := add32 v3 ((m 1) ^^^ cst 5)
  let v3 := add32 v3 v7
  let v15 := v15 ^^^ v3
  let v15 := rot16 v15
  let v11 := add32 v11 v15
  let v7 := v7 ^^^ v11
  let v7 := rot12 v7
  let v2 := add32 v2 ((m 6) ^^^ cst 7)
  let v2 := add32 v2 v6
  let v14 := v14 ^^^ v2
  let v14 := rot8 v14
  let v10 := add32 v10 v14
  let v6 := v6 ^^^ v10
  let v6 := rot7 v6
  let v3 := add32 v3 ((m 5) ^^^ cst 1)
  let v3 := add32 v3 v7
  let v15 := v15 ^^^ v3
  let v15 := rot8 v15
  let v11 := add32 v11 v15
  let v7 := v7 ^^^ v11
  let v7 := rot7 v7
  let v1 := add32 v1 ((m 4) ^^^ cst 8)
  let v1 := add32 v1 v5
  let v13 := v13 ^^^ v1
  let v13 := rot8 v13
  let v9 := add32 v9 v13
  let v5 := v5 ^^^ v9
  let v5 := rot7 v5
  let v0 := add32 v0 ((m 2) ^^^ cst 10)
  let v0 := add32 v0 v4
  let v12 := v12 ^^^ v0
  let v12 := rot8 v12
  let v8 := add32 v8 v12
  let v4 := v4 ^^^ v8
  let v4 := rot7 v4
  let v0 := add32 v0 ((m 15) ^^^ cst 11)
  let v0 := add32 v0 v5
  let v15 := v15 ^^^ v0
  let v15 := rot16 v15
  let v10 := add32 v10 v15
  let v5 := v5 ^^^ v10
  let v5 := rot12 v5
  let v1 := add32 v1 ((m 9) ^^^ cst 14)
  let v1 := add32 v1 v6
  let v12 := v12 ^^^ v1
  let v12 := rot16 v12
  let v11 := add32 v11 v12
  let v6 := v6 ^^^ v11
  let v6 := rot12 v6
  let v2 := add32 v2 ((m 3) ^^^ cst 12)
  let v2 := add32 v2 v7
  let v13 := v13 ^^^ v2
  let v13 := rot16 v13
  let v8 := add32 v8 v13
  let v7 := v7 ^^^ v8
  let v7 := rot12 v7
  let v3 := add32 v3 ((m 13) ^^^ cst 0)
  let v3 := add32 v3 v4
  let v14 := v14 ^^^ v3
  let v14 := rot16 v14
  let v9 := add32 v9 v14
  let v4 := v4 ^^^ v9
  let v4 := rot12 v4
  let v2 := add32 v2 ((m 12) ^^^ cst 3)
  let v2 := add32 v2 v7
  let v13 := v13 ^^^ v2
  let v13 := rot8 v13
  let v8 := add32 v8 v13
  let v7 := v7 ^^^ v8
  let v7 := rot7 v7
  let v3 := add32 v3 ((m 0) ^^^ cst 13)
  let v3 := add32 v3 v4
  let v14 := v14 ^^^ v3
  let v14 := rot8 v14
  let v9 := add32 v9 v14
  let v4 := v4 ^^^ v9
  let v4 := rot7 v4
  let v1 := add32 v1 ((m 14) ^^^ cst 9)
  let v1 := add32 v1 v6
  let v12 := v12 ^^^ v1
  let v12 := rot8 v12
  let v11 := add32 v11 v12
  let v6 := v6 ^^^ v11
  let v6 := rot7 v6
  let v0 := add32 v0 ((m 11) ^^^ cst 15)
  let v0 := add32 v0 v5
  let v15 := v15 ^^^ v0
  let v15 := rot8 v15
  let v10 := add32 v10 v15
  let v5 := v5 ^^^ v10
  let v5 := rot7 v5
  ⟨v0, v1, v2, v3, v4, v5, v6, v7, v8, v9, v10, v11, v12, v13, v14, v15⟩

/-- Round 11 of the unrolled `block` function, transcribed statement-for-statement
from the Go source. -/
def round11 (m : Nat → Nat) (v : V16) : V16 :=
  let v0 := v.v0
  let v1 := v.v1
  let v2 := v.v2
  let v3 := v.v3
  let v4 := v.v4
  let v5 := v.v5
  let v6 := v.v6
  let v7 := v.v7
  let v8 := v.v8
  let v9 := v.v9
  let v10 := v.v10
  let v11 := v.v11
  let v12 := v.v12
  let v13 := v.v13
  let v14 := v.v14
  let v15 := v.v15
  let v0 := add32 v0 ((m 0) ^^^ cst 1)
  let v0 := add32 v0 v4
  let v12 := v12 ^^^ v0
  let v12 := rot16 v12
  let v8 := add32 v8 v12
  let v4 := v4 ^^^ v8
  let v4 := rot12 v4
  let v1 := add32 v1 ((m 2) ^^^ cst 3)
  let v1 := add32 v1 v5
  let v13 := v13 ^^^ v1
  let v13 := rot16 v13
  let v9 := add32 v9 v13
  let v5 := v5 ^^^ v9
  let v5 := rot12 v5
  let v2 := add32 v2 ((m 4) ^^^ cst 5)
  let v2 := add32 v2 v6
  let v14 := v14 ^^^ v2
  let v14 := rot16 v14
  let v10 := add32 v10 v14
  let v6 := v6 ^^^ v10
  let v6 := rot12 v6
  let v3 := add32 v3 ((m 6) ^^^ cst 7)
  let v3 := add32 v3 v7
  let v15 := v15 ^^^ v3
  let v15 := rot16 v15
  let v11 := add32 v11 v15
  let v7 := v7 ^^^ v11
  let v7 := rot12 v7
  let v2 := add32 v2 ((m 5) ^^^ cst 4)
  let v2 := add32 v2 v6
  let v14 := v14 ^^^ v2
  let v14 := rot8 v14
  let v10 := add32 v10 v14
  let v6 := v6 ^^^ v10
  let v6 := rot7 v6
  let v3 := add32 v3 ((m 7) ^^^ cst 6)
  let v3 := add32 v3 v7
  let v15 := v15 ^^^ v3
  let v15 := rot8 v15
  let v11 := add32 v11 v15
  let v7 := v7 ^^^ v11
  let v7 := rot7 v7
  let v1 := add32 v1 ((m 3) ^^^ cst 2)
  let v1 := add32 v1 v5
  let v13 := v13 ^^^ v1
  let v13 := rot8 v13
  let v9 := add32 v9 v13
  let v5 := v5 ^^^ v9
  let v5 := rot7 v5
  let v0 := add32 v0 ((m 1) ^^^ cst 0)
  let v0 := add32 v0 v4
  let v12 := v12 ^^^ v0
  let v12 := rot8 v12
  let v8 := add32 v8 v12
  let v4 := v4 ^^^ v8
  let v4 := rot7 v4
  let v0 := add32 v0 ((m 8) ^^^ cst 9)
  let v0 := add32 v0 v5
  let v15 := v15 ^^^ v0
  let v15 := rot16 v15
  let v10 := add32 v10 v15
  let v5 := v5 ^^^ v10
  let v5 := rot12 v5
  let v1 := add32 v1 ((m 10) ^^^ cst 11)
  let v1 := add32 v1 v6
  let v12 := v12 ^^^ v1
  let v12 := rot16 v12
  let v11 := add32 v11 v12
  let v6 := v6 ^^^ v11
  let v6 := rot12 v6
  let v2 := add32 v2 ((m 12) ^^^ cst 13)
  let v2 := add32 v2 v7
  let v13 := v13 ^^^ v2
  let v13 := rot16 v13
  let v8 := add32 v8 v13
  let v7 := v7 ^^^ v8
  let v7 := rot12 v7
  let v3 := add32 v3 ((m 14) ^^^ cst 15)
  let v3 := add32 v3 v4
  let v14 := v14 ^^^ v3
  let v14 := rot16 v14
  let v9 := add32 v9 v14
  let v4 := v4 ^^^ v9
  let v4 := rot12 v4
  let v2 := add32 v2 ((m 13) ^^^ cst 12)
  let v2 := add32 v2 v7
  let v13 := v13 ^^^ v2
  let v13 := rot8 v13
  let v8 := add32 v8 v13
  let v7 := v7 ^^^ v8
  let v7 := rot7 v7
  let v3 := add32 v3 ((m 15) ^^^ cst 14)
  let v3 := add32 v3 v4
  let v14 := v14 ^^^ v3
  let v14 := rot8 v14
  let v9 := add32 v9 v14
  let v4 := v4 ^^^ v9
  let v4 := rot7 v4
  let v1 := add32 v1 ((m 11) ^^^ cst 10)
  let v1 := add32 v1 v6
  let v12 := v12 ^^^ v1
  let v12 := rot8 v12
  let v11 := add32 v11 v12
  let v6 := v6 ^^^ v11
  let v6 := rot7 v6
  let v0 := add32 v0 ((m 9) ^^^ cst 8)
  let v0 := add32 v0 v5
  let v15 := v15 ^^^ v0
  let v15 := rot8 v15
  let v10 := add32 v10 v15
  let v5 := v5 ^^^ v10
  let v5 := rot7 v5
  ⟨v0, v1, v2, v3, v4, v5, v6, v7, v8, v9, v10, v11, v12, v13, v14, v15⟩

/-- Round 12 of the unrolled `block` function, transcribed statement-for-statement
from the Go source. -/
def round12 (m : Nat → Nat) (v : V16) : V16 :=
  let v0 := v.v0
  let v1 := v.v1
  let v2 := v.v2
  let v3 := v.v3
  let v4 := v.v4
  let v5 := v.v5
  let v6 := v.v6
  let v7 := v.v7
  let v8 := v.v8
  let v9 := v.v9
  let v10 := v.v10
  let v11 := v.v11
  let v12 := v.v12
  let v13 := v.v13
  let v14 := v.v14
  let v15 := v.v15
  let v0 := add32 v0 ((m 14) ^^^ cst 10)
  let v0 := add32 v0 v4
  let v12 := v12 ^^^ v0
  let v12 := rot16 v12
  let v8 := add32 v8 v12
  let v4 := v4 ^^^ v8
  let v4 := rot12 v4
  let v1 := add32 v1 ((m 4) ^^^ cst 8)
  let v1 := add32 v1 v5
  let v13 := v13 ^^^ v1
  let v13 := rot16 v13
  let v9 := add32 v9 v13
  let v5 := v5 ^^^ v9
  let v5 := rot12 v5
  let v2 := add32 v2 ((m 9) ^^^ cst 15)
  let v2 := add32 v2 v6
  let v14 := v14 ^^^ v2
  let v14 := rot16 v14
  let v10 := add32 v10 v14
  let v6 := v6 ^^^ v10
  let v6 := rot12 v6
  let v3 := add32 v3 ((m 13) ^^^ cst 6)
  let v3 := add32 v3 v7
  let v15 := v15 ^^^ v3
  let v15 := rot16 v15
  let v11 := add32 v11 v15
  let v7 := v7 ^^^ v11
  let v7 := rot12 v7
  let v2 := add32 v2 ((m 15) ^^^ cst 9)
  let v2 := add32 v2 v6
  let v14 := v14 ^^^ v2
  let v14 := rot8 v14
  let v10 := add32 v10 v14
  let v6 := v6 ^^^ v10
  let v6 := rot7 v6
  let v3 := add32 v3 ((m 6) ^^^ cst 13)
  let v3 := add32 v3 v7
  let v15 := v15 ^^^ v3
  let v15 := rot8 v15
  let v11 := add32 v11 v15
  let v7 := v7 ^^^ v11
  let v7 := rot7 v7
  let v1 := add32 v1 ((m 8) ^^^ cst 4)
  let v1 := add32 v1 v5
  let v13 := v13 ^^^ v1
  let v13 := rot8 v13
  let v9 := add32 v9 v13
  let v5 := v5 ^^^ v9
  let v5 := rot7 v5
  let v0 := add32 v0 ((m 10) ^^^ cst 14)
  let v0 := add32 v0 v4
  let v12 := v12 ^^^ v0
  let v12 := rot8 v12
  let v8 := add32 v8 v12
  let v4 := v4 ^^^ v8
  let v4 := rot7 v4
  let v0 := add32 v0 ((m 1) ^^^ cst 12)
  let v0 := add32 v0 v5
  let v15 := v15 ^^^ v0
  let v15 := rot16 v15
  let v10 := add32 v10 v15
  let v5 := v5 ^^^ v10
  let v5 := rot12 v5
  let v1 := add32 v1 ((m 0) ^^^ cst 2)
  let v1 := add32 v1 v6
  let v12 := v12 ^^^ v1
  let v12 := rot16 v12
  let v11 := add32 v11 v12
  let v6 := v6 ^^^ v11
  let v6 := rot12 v6
  let v2 := add32 v2 ((m 11) ^^^ cst 7)
  let v2 := add32 v2 v7
  let v13 := v13 ^^^ v2
  let v13 := rot16 v13
  let v8 := add32 v8 v13
  let v7 := v7 ^^^ v8
  let v7 := rot12 v7
  let v3 := add32 v3 ((m 5) ^^^ cst 3)
  let v3 := add32 v3 v4
  let v14 := v14 ^^^ v3
  let v14 := rot16 v14
  let v9 := add32 v9 v14
  let v4 := v4 ^^^ v9
  let v4 := rot12 v4
  let v2 := add32 v2 ((m 7) ^^^ cst 11)
  let v2 := add32 v2 v7
  let v13 := v13 ^^^ v2
  let v13 := rot8 v13
  let v8 := add32 v8 v13
  let v7 := v7 ^^^ v8
  let v7 := rot7 v7
  let v3 := add32 v3 ((m 3) ^^^ cst 5)
  let v3 := add32 v3 v4
  let v14 := v14 ^^^ v3
  let v14 := rot8 v14
  let v9 := add32 v9 v14
  let v4 := v4 ^^^ v9
  let v4 := rot7 v4
  let v1 := add32 v1 ((m 2) ^^^ cst 0)
  let v1 := add32 v1 v6
  let v12 := v12 ^^^ v1
  let v12 := rot8 v12
  let v11 := add32 v11 v12
  let v6 := v6 ^^^ v11
  let v6 := rot7 v6
  let v0 := add32 v0 ((m 12) ^^^ cst 1)
  let v0 := add32 v0 v5
  let v15 := v15 ^^^ v0
  let v15 := rot8 v15
  let v10 := add32 v10 v15
  let v5 := v5 ^^^ v10
  let v5 := rot7 v5
  ⟨v0, v1, v2, v3, v4, v5, v6, v7, v8, v9, v10, v11, v12, v13, v14, v15⟩

/-- Round 13 of the unrolled `block` function, transcribed statement-for-statement
from the Go source. -/
def round13 (m : Nat → Nat) (v : V16) : V16 :=
  let v0 := v.v0
  let v1 := v.v1
  let v2 := v.v2
  let v3 := v.v3
  let v4 := v.v4
  let v5 := v.v5
  let v6 := v.v6
  let v7 := v.v7
  let v8 := v.v8
  let v9 := v.v9
  let v10 := v.v10
  let v11 := v.v11
  let v12 := v.v12
  let v13 := v.v13
  let v14 := v.v14
  let v15 := v.v15
  let v0 := add32 v0 ((m 11) ^^^ cst 8)
  let v0 := add32 v0 v4
  let v12 := v12 ^^^ v0
  let v12 := rot16 v12
  let v8 := add32 v8 v12
  let v4 := v4 ^^^ v8
  let v4 := rot12 v4
  let v1 := add32 v1 ((m 12) ^^^ cst 0)
  let v1 := add32 v1 v5
  let v13 := v13 ^^^ v1
  let v13 := rot16 v13
  let v9 := add32 v9 v13
  let v5 := v5 ^^^ v9
  let v5 := rot12 v5
  let v2 := add32 v2 ((m 5) ^^^ cst 2)
  let v2 := add32 v2 v6
  let v14 := v14 ^^^ v2
  let v14 := rot16 v14
  let v10 := add32 v10 v14
  let v6 := v6 ^^^ v10
  let v6 := rot12 v6
  let v3 := add32 v3 ((m 15) ^^^ cst 13)
  let v3 := add32 v3 v7
  let v15 := v15 ^^^ v3
  let v15 := rot16 v15
  let v11 := add32 v11 v15
  let v7 := v7 ^^^ v11
  let v7 := rot12 v7
  let v2 := add32 v2 ((m 2) ^^^ cst 5)
  let v2 := add32 v2 v6
  let v14 := v14 ^^^ v2
  let v14 := rot8 v14
  let v10 := add32 v10 v14
  let v6 := v6 ^^^ v10
  let v6 := rot7 v6
  let v3 := add32 v3 ((m 13) ^^^ cst 15)
  let v3 := add32 v3 v7
  let v15 := v15 ^^^ v3
  let v15 := rot8 v15
  let v11 := add32 v11 v15
  let v7 := v7 ^^^ v11
  let v7 := rot7 v7
  let v1 := add32 v1 ((m 0) ^^^ cst 12)
  let v1 := add32 v1 v5
  let v13 := v13 ^^^ v1
  let v13 := rot8 v13
  let v9 := add32 v9 v13
  let v5 := v5 ^^^ v9
  let v5 := rot7 v5
  let v0 := add32 v0 ((m 8) ^^^ cst 11)
  let v0 := add32 v0 v4
  let v12 := v12 ^^^ v0
  let v12 := rot8 v12
  let v8 := add32 v8 v12
  let v4 := v4 ^^^ v8
  let v4 := rot7 v4
  let v0 := add32 v0 ((m 10) ^^^ cst 14)
  let v0 := add32 v0 v5
  let v15 := v15 ^^^ v0
  let v15 := rot16 v15
  let v10 := add32 v10 v15
  let v5 := v5 ^^^ v10
  let v5 := rot12 v5
  let v1 := add32 v1 ((m 3) ^^^ cst 6)
  let v1 := add32 v1 v6
  let v12 := v12 ^^^ v1
  let v12 := rot16 v12
  let v11 := add32 v11 v12
  let v6 := v6 ^^^ v11
  let v6 := rot12 v6
  let v2 := add32 v2 ((m 7) ^^^ cst 1)
  let v2 := add32 v2 v7
  let v13 := v13 ^^^ v2
  let v13 := rot16 v13
  let v8 := add32 v8 v13
  let v7 := v7 ^^^ v8
  let v7 := rot12 v7
  let v3 := add32 v3 ((m 9) ^^^ cst 4)
  let v3 := add32 v3 v4
  let v14 := v14 ^^^ v3
  let v14 := rot16 v14
  let v9 := add32 v9 v14
  let v4 := v4 ^^^ v9
  let v4 := rot12 v4
  let v2 := add32 v2 ((m 1) ^^^ cst 7)
  let v2 := add32 v2 v7
  let v13 := v13 ^^^ v2
  let v13 := rot8 v13
  let v8 := add32 v8 v13
  let v7 := v7 ^^^ v8
  let v7 := rot7 v7
  let v3 := add32 v3 ((m 4) ^^^ cst 9)
  let v3 := add32 v3 v4
  let v14 := v14 ^^^ v3
  let v14 := rot8 v14
  let v9 := add32 v9 v14
  let v4 := v4 ^^^ v9
  let v4 := rot7 v4
  let v1 := add32 v1 ((m 6) ^^^ cst 3)
  let v1 := add32 v1 v6
  let v12 := v12 ^^^ v1
  let v12 := rot8 v12
  let v11 := add32 v11 v12
  let v6 := v6 ^^^ v11
  let v6 := rot7 v6
  let v0 := add32 v0 ((m 14) ^^^ cst 10)
  let v0 := add32 v0 v5
  let v15 := v15 ^^^ v0
  let v15 := rot8 v15
  let v10 := add32 v10 v15
  let v5 := v5 ^^^ v10
  let v5 := rot7 v5
  ⟨v0, v1, v2, v3, v4, v5, v6, v7, v8, v9, v10, v11, v12, v13, v14, v15⟩

/-- Round 14 of the unrolled `block` function, transcribed statement-for-statement
from the Go source. -/
def round14 (m : Nat → Nat) (v : V16) : V16 :=
  let v0 := v.v0
  let v1 := v.v1
  let v2 := v.v2
  let v3 := v.v3
  let v4 := v.v4
  let v5 := v.v5
  let v6 := v.v6
  let v7 := v.v7
  let v8 := v.v8
  let v9 := v.v9
  let v10 := v.v10
  let v11 := v.v11
  let v12 := v.v12
  let v13 := v.v13
  let v14 := v.v14
  let v15 := v.v15
  let v0 := add32 v0 ((m 7) ^^^ cst 9)
  let v0 := add32 v0 v4
  let v12 := v12 ^^^ v0
  let v12 := rot16 v12
  let v8 := add32 v8 v12
  let v4 := v4 ^^^ v8
  let v4 := rot12 v4
  let v1 := add32 v1 ((m 3) ^^^ cst 1)
  let v1 := add32 v1 v5
  let v13 := v13 ^^^ v1
  let v13 := rot16 v13
  let v9 := add32 v9 v13
  let v5 := v5 ^^^ v9
  let v5 := rot12 v5
  let v2 := add32 v2 ((m 13) ^^^ cst 12)
  let v2 := add32 v2 v6
  let v14 := v14 ^^^ v2
  let v14 := rot16 v14
  let v10 := add32 v10 v14
  let v6 := v6 ^^^ v10
  let v6 := rot12 v6
  let v3 := add32 v3 ((m 11) ^^^ cst 14)
  let v3 := add32 v3 v7
  let v15 := v15 ^^^ v3
  let v15 := rot16 v15
  let v11 := add32 v11 v15
  let v7 := v7 ^^^ v11
  let v7 := rot12 v7
  let v2 := add32 v2 ((m 12) ^^^ cst 13)
  let v2 := add32 v2 v6
  let v14 := v14 ^^^ v2
  let v14 := rot8 v14
  let v10 := add32 v10 v14
  let v6 := v6 ^^^ v10
  let v6 := rot7 v6
  let v3 := add32 v3 ((m 14) ^^^ cst 11)
  let v3 := add32 v3 v7
  let v15 := v15 ^^^ v3
  let v15 := rot8 v15
  let v11 := add32 v11 v15
  let v7 := v7 ^^^ v11
  let v7 := rot7 v7
  let v1 := add32 v1 ((m 1) ^^^ cst 3)
  let v1 := add32 v1 v5
  let v13 := v13 ^^^ v1
  let v13 := rot8 v13
  let v9 := add32 v9 v13
  let v5 := v5 ^^^ v9
  let v5 := rot7 v5
  let v0 := add32 v0 ((m 9) ^^^ cst 7)
  let v0 := add32 v0 v4
  let v12 := v12 ^^^ v0
  let v12 := rot8 v12
  let v8 := add32 v8 v12
  let v4 := v4 ^^^ v8
  let v4 := rot7 v4
  let v0 := add32 v0 ((m 2) ^^^ cst 6)
  let v0 := add32 v0 v5
  let v15 := v15 ^^^ v0
  let v15 := rot16 v15
  let v10 := add32 v10 v15
  let v5 := v5 ^^^ v10
  let v5 := rot12 v5
  let v1 := add32 v1 ((m 5) ^^^ cst 10)
  let v1 := add32 v1 v6
  let v12 := v12 ^^^ v1
  let v12 := rot16 v12
  let v11 := add32 v11 v12
  let v6 := v6 ^^^ v11
  let v6 := rot12 v6
  let v2 := add32 v2 ((m 4) ^^^ cst 0)
  let v2 := add32 v2 v7
  let v13 := v13 ^^^ v2
  let v13 := rot16 v13
  let v8 := add32 v8 v13
  let v7 := v7 ^^^ v8
  let v7 := rot12 v7
  let v3 := add32 v3 ((m 15) ^^^ cst 8)
  let v3 := add32 v3 v4
  let v14 := v14 ^^^ v3
  let v14 := rot16 v14
  let v9 := add32 v9 v14
  let v4 := v4 ^^^ v9
  let v4 := rot12 v4
  let v2 := add32 v2 ((m 0) ^^^ cst 4)
  let v2 := add32 v2 v7
  let v13 := v13 ^^^ v2
  let v13 := rot8 v13
  let v8 := add32 v8 v13
  let v7 := v7 ^^^ v8
  let v7 := rot7 v7
  let v3 := add32 v3 ((m 8) ^^^ cst 15)
  let v3 := add32 v3 v4
  let v14 := v14 ^^^ v3
  let v14 := rot8 v14
  let v9 := add32 v9 v14
  let v4 := v4 ^^^ v9
  let v4 := rot7 v4
  let v1 := add32 v1 ((m 10) ^^^ cst 5)
  let v1 := add32 v1 v6
  let v12 := v12 ^^^ v1
  let v12 := rot8 v12
  let v11 := add32 v11 v12
  let v6 := v6 ^^^ v11
  let v6 := rot7 v6
  let v0 := add32 v0 ((m 6) ^^^ cst 2)
  let v0 := add32 v0 v5
  let v15 := v15 ^^^ v0
  let v15 := rot8 v15
  let v10 := add32 v10 v15
  let v5 := v5 ^^^ v10
  let v5 := rot7 v5
  ⟨v0, v1, v2, v3, v4, v5, v6, v7, v8, v9, v10, v11, v12, v13, v14, v15⟩
/-- The sequential composition of the fourteen unrolled rounds, exactly as they
appear in the body of the Go `block` loop. -/
def roundsOf (m : Nat → Nat) (v : V16) : V16 :=
  round14 m (round13 m (round12 m (round11 m (round10 m (round9 m (round8 m
    (round7 m (round6 m (round5 m (round4 m (round3 m (round2 m (round1 m v)))))))))))))

/-- The `digest` struct of the source: output size in bits, chain value
`h0..h7`, salt `s0..s3`, 64-bit message-bits counter `t`, the skip-counter
flag `nullt`, and the buffer of not-yet-compressed bytes (the live prefix
`x[:nx]` of the source's fixed array). -/
@[ext]
structure Digest where
  hashSize : Nat
  h0 : Nat
  h1 : Nat
  h2 : Nat
  h3 : Nat
  h4 : Nat
  h5 : Nat
  h6 : Nat
  h7 : Nat
  s0 : Nat
  s1 : Nat
  s2 : Nat
  s3 : Nat
  t : Nat
  nullt : Bool
  x : List Nat
  deriving DecidableEq

/-- Field assignment `d.x = v` of the source. -/
def setX (d : Digest) (v : List Nat) : Digest := { d with x := v }

/-- Field assignment `d.t = v` of the source. -/
def setT (d : Digest) (v : Nat) : Digest := { d with t := v }

/-- Field assignment `d.nullt = b` of the source. -/
def setNullt (d : Digest) (b : Bool) : Digest := { d with nullt := b }

/-- Big-endian load of message word `i` from a 64-byte block
(`m[i] = uint32(p[4i])<<24 | ... | uint32(p[4i+3])` in the source). -/
def mword (p : List Nat) (i : Nat) : Nat :=
  ((p.getD (4 * i) 0) <<< 24) ||| ((p.getD (4 * i + 1) 0) <<< 16) |||
    ((p.getD (4 * i + 2) 0) <<< 8) ||| (p.getD (4 * i + 3) 0)

/-- One iteration of the Go `block` loop body: bump the counter by 512,
initialize the sixteen-word working state (salting `v8..v11`, injecting the
counter into `v12..v15` unless `nullt`), run the fourteen rounds on the first
64 bytes of `p`, and fold the result back into the chain value. -/
def compressOne (d : Digest) (p : List Nat) : Digest :=
  let t := (d.t + 512) % M64
  let m := mword (p.take 64)
  let v12 := cst 4
  let v13 := cst 5
  let v14 := cst 6
  let v15 := cst 7
  let v12 := if d.nullt then v12 else v12 ^^^ (t % M32)
  let v13 := if d.nullt then v13 else v13 ^^^ (t % M32)
  let v14 := if d.nullt then v14 else v14 ^^^ ((t >>> 32) % M32)
  let v15 := if d.nullt then v15 else v15 ^^^ ((t >>> 32) % M32)
  let v : V16 := ⟨d.h0, d.h1, d.h2, d.h3, d.h4, d.h5, d.h6, d.h7,
    cst 0 ^^^ d.s0, cst 1 ^^^ d.s1, cst 2 ^^^ d.s2, cst 3 ^^^ d.s3,
    v12, v13, v14, v15⟩
  let v := roundsOf m v
  { d with
    t := t,
    h0 := d.h0 ^^^ (v.v0 ^^^ v.v8 ^^^ d.s0),
    h1 := d.h1 ^^^ (v.v1 ^^^ v.v9 ^^^ d.s1),
    h2 := d.h2 ^^^ (v.v2 ^^^ v.v10 ^^^ d.s2),
    h3 := d.h3 ^^^ (v.v3 ^^^ v.v11 ^^^ d.s3),
    h4 := d.h4 ^^^ (v.v4 ^^^ v.v12 ^^^ d.s0),
    h5 := d.h5 ^^^ (v.v5 ^^^ v.v13 ^^^ d.s1),
    h6 := d.h6 ^^^ (v.v6 ^^^ v.v14 ^^^ d.s2),
    h7 := d.h7 ^^^ (v.v7 ^^^ v.v15 ^^^ d.s3) }

/-- Fuelled form of the `for len(p) >= BlockSize` loop of `block`; the fuel
only bounds the iteration count, `blockGo` supplies enough. -/
def blockLoop : Nat → Digest → List Nat → Digest
  | 0, d, _ => d
  | fuel + 1, d, p =>
      if 64 ≤ p.length then blockLoop fuel (compressOne d p) (p.drop 64) else d

/-- The Go `block` function: compress every leading complete 64-byte block of
`p` in order, ignoring any trailing partial block. -/
def blockGo (d : Digest) (p : List Nat) : Digest := blockLoop p.length d p

/-- Phases two and three of `digest.Write`: compress the maximal multiple-of-64
prefix of the remaining input directly, then buffer any trailing remainder. -/
def writePhase23 (d : Digest) (p : List Nat) : Digest :=
  let dp :=
    if 64 ≤ p.length then
      let n := p.length - p.length % 64
      (blockGo d (p.take n), p.drop n)
    else (d, p)
  if 0 < dp.2.length then setX dp.1 dp.2 else dp.1

/-- The streaming update `digest.Write`: if bytes are buffered, fill the buffer
first and compress it once full, then hand the rest to `writePhase23`. -/
def write (d : Digest) (p : List Nat) : Digest :=
  let dp :=
    if 0 < d.x.length then
      let n := min p.length (64 - d.x.length)
      let d1 := setX d (d.x ++ p.take n)
      let d2 := if d1.x.length = 64 then setX (blockGo d1 d1.x) [] else d1
      (d2, p.drop n)
    else (d, p)
  writePhase23 dp.1 dp.2

/-- The source's padding buffer `pad = [64]byte{0x80}`. -/
def padList : List Nat := 0x80 :: List.replicate 63 0

/-- Big-endian serialization of the 64-bit length field (`len[0..7]`). -/
def be64 (l : Nat) : List Nat :=
  [(l >>> 56) % 256, (l >>> 48) % 256, (l >>> 40) % 256, (l >>> 32) % 256,
   (l >>> 24) % 256, (l >>> 16) % 256, (l >>> 8) % 256, l % 256]

/-- Big-endian serialization of one 32-bit chain-value word. -/
def be32 (w : Nat) : List Nat :=
  [(w >>> 24) % 256, (w >>> 16) % 256, (w >>> 8) % 256, w % 256]

/-- The chain value as a list of eight words. -/
def wordsOf (d : Digest) : List Nat :=
  [d.h0, d.h1, d.h2, d.h3, d.h4, d.h5, d.h6, d.h7]

/-- The output serialization at the end of `checkSum`: the first
`hashSize >> 5` chain words big-endian, in a zero-filled 32-byte array. -/
def serializeOut (d : Digest) : List Nat :=
  ((wordsOf d).take (d.hashSize >>> 5)).flatMap be32 ++
    List.replicate (32 - 4 * (d.hashSize >>> 5)) 0

/-- The state-transforming part of `digest.checkSum`, parameterized by the
already-serialized 8-byte length field `lenB` that the source computes first:
branch on the number `nx` of buffered bytes, feed padding and the
domain/terminator byte with the counter adjustments of the source, and feed
`lenB` last. -/
def checkSumState (d : Digest) (lenB : List Nat) : Digest :=
  let nx := d.x.length
  let d :=
    if nx = 55 then
      let d := setT d ((d.t + (M64 - 8)) % M64)
      if d.hashSize = 224 then write d [0x80] else write d [0x81]
    else
      let d :=
        if nx < 55 then
          let d := if nx = 0 then setNullt d true else d
          let d := setT d ((d.t + (M64 - (440 - (nx <<< 3)))) % M64)
          write d (padList.take (55 - nx))
        else
          let d := setT d ((d.t + (M64 - (512 - (nx <<< 3)))) % M64)
          let d := write d (padList.take (64 - nx))
          let d := setT d ((d.t + (M64 - 440)) % M64)
          let d := write d ((padList.drop 1).take 55)
          setNullt d true
      let d := if d.hashSize = 224 then write d [0x00] else write d [0x01]
      setT d ((d.t + (M64 - 8)) % M64)
  let d := setT d ((d.t + (M64 - 64)) % M64)
  write d lenB

/-- The final internal state of `digest.checkSum`: the length field is the
counter plus the buffered bits (`l = d.t + uint64(nx)<<3`), serialized before
any padding adjustment touches the counter. -/
def checkSumFin (d : Digest) : Digest :=
  checkSumState d (be64 ((d.t + (d.x.length <<< 3)) % M64))

/-- `digest.checkSum`: run finalization and serialize the chain value. -/
def checkSum (d : Digest) : List Nat := serializeOut (checkSumFin d)

/-- `digest.Sum`: append the digest (28 or 32 bytes by output size) to `inp`.
The Go receiver is a value, so the caller's state is untouched. -/
def sum (d : Digest) (inp : List Nat) : List Nat :=
  if d.hashSize >>> 3 = 28 then inp ++ (checkSum d).take 28 else inp ++ checkSum d

/-- The method call `d.Sum(inp)` as seen by the caller: since the Go receiver
is a value copy (`func (d digest) Sum`), the caller's state after the call is
the unchanged `d`. -/
def sumOp (d : Digest) (inp : List Nat) : List Nat × Digest := (sum d inp, d)

/-- `digest.Reset`: width-appropriate initial chain value, cleared counter,
buffer and flag; the salt is kept. -/
def reset (d : Digest) : Digest :=
  if d.hashSize = 224 then
    { d with
      h0 := 0xC1059ED8, h1 := 0x367CD507, h2 := 0x3070DD17,
      h3 := 0xF70E5939, h4 := 0xFFC00B31, h5 := 0x68581511,
      h6 := 0x64F98FA7, h7 := 0xBEFA4FA4, t := 0, nullt := false, x := [] }
  else
    { d with
      h0 := 0x6A09E667, h1 := 0xBB67AE85, h2 := 0x3C6EF372,
      h3 := 0xA54FF53A, h4 := 0x510E527F, h5 := 0x9B05688C,
      h6 := 0x1F83D9AB, h7 := 0x5BE0CD19, t := 0, nullt := false, x := [] }

/-- `New()`: a fresh unsalted BLAKE-256 state. -/
def newD : Digest :=
  { hashSize := 256, h0 := 0x6A09E667, h1 := 0xBB67AE85, h2 := 0x3C6EF372,
    h3 := 0xA54FF53A, h4 := 0x510E527F, h5 := 0x9B05688C, h6 := 0x1F83D9AB,
    h7 := 0x5BE0CD19, s0 := 0, s1 := 0, s2 := 0, s3 := 0, t := 0,
    nullt := false, x := [] }

/-- `New224()`: a fresh unsalted BLAKE-224 state. -/
def new224D : Digest :=
  { hashSize := 224, h0 := 0xC1059ED8, h1 := 0x367CD507, h2 := 0x3070DD17,
    h3 := 0xF70E5939, h4 := 0xFFC00B31, h5 := 0x68581511, h6 := 0x64F98FA7,
    h7 := 0xBEFA4FA4, s0 := 0, s1 := 0, s2 := 0, s3 := 0, t := 0,
    nullt := false, x := [] }

/-- `digest.setSalt`: packs a 16-byte salt into four big-endian 32-bit words;
any other length panics, modelled as `none`. -/
def setSaltWords (s : List Nat) : Option (Nat × Nat × Nat × Nat) :=
  if s.length = 16 then
    some (((s.getD 0 0) <<< 24) ||| ((s.getD 1 0) <<< 16) ||| ((s.getD 2 0) <<< 8) ||| (s.getD 3 0),
          ((s.getD 4 0) <<< 24) ||| ((s.getD 5 0) <<< 16) ||| ((s.getD 6 0) <<< 8) ||| (s.getD 7 0),
          ((s.getD 8 0) <<< 24) ||| ((s.getD 9 0) <<< 16) ||| ((s.getD 10 0) <<< 8) ||| (s.getD 11 0),
          ((s.getD 12 0) <<< 24) ||| ((s.getD 13 0) <<< 16) ||| ((s.getD 14 0) <<< 8) ||| (s.getD 15 0))
  else none

/-- `NewSalt`: `New()` with the salt installed; `none` models the panic on a
salt whose length is not 16. -/
def newSaltD (salt : List Nat) : Option Digest :=
  (setSaltWords salt).map fun w =>
    { newD with s0 := w.1, s1 := w.2.1, s2 := w.2.2.1, s3 := w.2.2.2 }

/-- `New224Salt`: `New224()` with the salt installed. -/
def new224SaltD (salt : List Nat) : Option Digest :=
  (setSaltWords salt).map fun w =>
    { new224D with s0 := w.1, s1 := w.2.1, s2 := w.2.2.1, s3 := w.2.2.2 }

/-- `Sum256`: one-shot BLAKE-256 of `data` (32 bytes). -/
def sum256 (data : List Nat) : List Nat := checkSum (write newD data)

/-- `Sum224`: one-shot BLAKE-224 of `data` (28 bytes). -/
def sum224 (data : List Nat) : List Nat := (checkSum (write new224D data)).take 28

/-- The states reachable through the public API: the four constructors,
`Write`, and `Reset`. (`Sum` takes its receiver by value and leaves the
caller's state unchanged.) -/
inductive Reachable : Digest → Prop where
  | new : Reachable newD
  | new224 : Reachable new224D
  | newSalt (s : List Nat) (d : Digest) : newSaltD s = some d → Reachable d
  | new224Salt (s : List Nat) (d : Digest) : new224SaltD s = some d → Reachable d
  | write (d : Digest) (p : List Nat) : Reachable d → Reachable (write d p)
  | reset (d : Digest) : Reachable d → Reachable (reset d)
/-! ## Basic facts about the compression loop -/

theorem compressOne_hashSize (d : Digest) (p : List Nat) :
    (compressOne d p).hashSize = d.hashSize := rfl

theorem compressOne_s0 (d : Digest) (p : List Nat) : (compressOne d p).s0 = d.s0 := rfl

theorem compressOne_s1 (d : Digest) (p : List Nat) : (compressOne d p).s1 = d.s1 := rfl

theorem compressOne_s2 (d : Digest) (p : List Nat) : (compressOne d p).s2 = d.s2 := rfl

theorem compressOne_s3 (d : Digest) (p : List Nat) : (compressOne d p).s3 = d.s3 := rfl

theorem compressOne_nullt (d : Digest) (p : List Nat) :
    (compressOne d p).nullt = d.nullt := rfl

theorem compressOne_x (d : Digest) (p : List Nat) : (compressOne d p).x = d.x := rfl

theorem compressOne_t (d : Digest) (p : List Nat) :
    (compressOne d p).t = (d.t + 512) % M64 := rfl

/-- The compression step only reads the first 64 bytes of its input. -/
theorem compressOne_congr (d : Digest) {p q : List Nat} (h : p.take 64 = q.take 64) :
    compressOne d p = compressOne d q := by
  unfold compressOne
  rw [h]

/-- Compression ignores the buffer field and carries it through. -/
theorem compressOne_setX (d : Digest) (v : List Nat) (p : List Nat) :
    compressOne (setX d v) p = setX (compressOne d p) v := rfl

theorem blockLoop_of_lt {p : List Nat} (fuel : Nat) (d : Digest) (h : p.length < 64) :
    blockLoop fuel d p = d := by
  cases fuel with
  | zero => rfl
  | succ f => simp only [blockLoop, if_neg (by omega : ¬ 64 ≤ p.length)]

theorem blockLoop_congr {f1 : Nat} : ∀ {f2 : Nat} {d : Digest} {p : List Nat},
    p.length ≤ f1 → p.length ≤ f2 → blockLoop f1 d p = blockLoop f2 d p := by
  induction f1 with
  | zero =>
    intro f2 d p h1 _
    rw [blockLoop_of_lt 0 d (by omega), blockLoop_of_lt f2 d (by omega)]
  | succ f ih =>
    intro f2 d p h1 h2
    by_cases h : 64 ≤ p.length
    · cases f2 with
      | zero => omega
      | succ g =>
        simp only [blockLoop, if_pos h]
        exact ih (by simp; omega) (by simp; omega)
    · rw [blockLoop_of_lt _ d (by omega), blockLoop_of_lt _ d (by omega)]

theorem blockGo_of_lt {p : List Nat} (d : Digest) (h : p.length < 64) :
    blockGo d p = d := blockLoop_of_lt _ d h

theorem blockGo_step {p : List Nat} (d : Digest) (h : 64 ≤ p.length) :
    blockGo d p = blockGo (compressOne d p) (p.drop 64) := by
  unfold blockGo
  have h1 : p.length = (p.length - 1) + 1 := by omega
  rw [h1]
  simp only [blockLoop, if_pos h]
  exact blockLoop_congr (by simp; omega) (by simp)

theorem blockGo_single {p : List Nat} (d : Digest) (h : p.length = 64) :
    blockGo d p = compressOne d p := by
  rw [blockGo_step d (by omega)]
  exact blockGo_of_lt _ (by simp [h])

theorem blockLoop_hashSize : ∀ (f : Nat) (d : Digest) (p : List Nat),
    (blockLoop f d p).hashSize = d.hashSize := by
  intro f
  induction f with
  | zero => intro d p; rfl
  | succ f ih =>
    intro d p
    simp only [blockLoop]
    split
    · rw [ih]
      exact compressOne_hashSize _ _
    · rfl

theorem blockLoop_nullt : ∀ (f : Nat) (d : Digest) (p : List Nat),
    (blockLoop f d p).nullt = d.nullt := by
  intro f
  induction f with
  | zero => intro d p; rfl
  | succ f ih =>
    intro d p
    simp only [blockLoop]
    split
    · rw [ih]
      exact compressOne_nullt _ _
    · rfl

theorem blockLoop_x : ∀ (f : Nat) (d : Digest) (p : List Nat),
    (blockLoop f d p).x = d.x := by
  intro f
  induction f with
  | zero => intro d p; rfl
  | succ f ih =>
    intro d p
    simp only [blockLoop]
    split
    · rw [ih]
      exact compressOne_x _ _
    · rfl

theorem blockGo_hashSize (d : Digest) (p : List Nat) :
    (blockGo d p).hashSize = d.hashSize := blockLoop_hashSize _ d p

theorem blockGo_nullt (d : Digest) (p : List Nat) :
    (blockGo d p).nullt = d.nullt := blockLoop_nullt _ d p

theorem blockGo_x (d : Digest) (p : List Nat) : (blockGo d p).x = d.x :=
  blockLoop_x _ d p

theorem blockLoop_setX : ∀ (f : Nat) (d : Digest) (v : List Nat) (p : List Nat),
    blockLoop f (setX d v) p = setX (blockLoop f d p) v := by
  intro f
  induction f with
  | zero => intro d v p; rfl
  | succ f ih =>
    intro d v p
    simp only [blockLoop]
    split
    · rw [compressOne_setX, ih]
    · rfl

theorem blockGo_setX (d : Digest) (v : List Nat) (p : List Nat) :
    blockGo (setX d v) p = setX (blockGo d p) v := blockLoop_setX _ d v p

/-- Counter evolution: each compressed block adds 512 to the counter mod 2^64. -/
theorem blockGo_t : ∀ (n : Nat) (p : List Nat) (d : Digest), p.length ≤ n →
    (blockGo d p).t ≡ d.t + 512 * (p.length / 64) [MOD M64] := by
  intro n
  induction n with
  | zero =>
    intro p d h
    rw [blockGo_of_lt d (by omega), Nat.div_eq_of_lt (by omega), Nat.mul_zero, Nat.add_zero]
  | succ n ih =>
    intro p d h
    by_cases h64 : 64 ≤ p.length
    · rw [blockGo_step d h64]
      have h1 := ih (p.drop 64) (compressOne d p) (by simp; omega)
      rw [compressOne_t] at h1
      have h2 : (d.t + 512) % M64 + 512 * ((p.drop 64).length / 64)
          ≡ d.t + 512 * (p.length / 64) [MOD M64] := by
        have h3 : (p.drop 64).length / 64 = p.length / 64 - 1 := by simp; omega
        have h5 : 1 ≤ p.length / 64 := Nat.one_le_div_iff (by omega) |>.mpr h64
        have h4 : d.t + 512 + 512 * (p.length / 64 - 1) = d.t + 512 * (p.length / 64) := by
          omega
        calc (d.t + 512) % M64 + 512 * ((p.drop 64).length / 64)
            ≡ d.t + 512 + 512 * ((p.drop 64).length / 64) [MOD M64] :=
              Nat.ModEq.add_right _ (Nat.mod_modEq _ _)
          _ = d.t + 512 * (p.length / 64) := by rw [h3, h4]
      exact h1.trans h2
    · rw [blockGo_of_lt d (by omega), Nat.div_eq_of_lt (by omega), Nat.mul_zero, Nat.add_zero]

/-- The loop ignores a trailing partial block. -/
theorem blockGo_take : ∀ (n : Nat) (p : List Nat) (d : Digest), p.length ≤ n →
    blockGo d (p.take (64 * (p.length / 64))) = blockGo d p := by
  intro n
  induction n with
  | zero =>
    intro p d h
    have h0 : p.length = 0 := by omega
    rw [Nat.div_eq_of_lt (by omega), Nat.mul_zero]
    rw [blockGo_of_lt d (by simp), blockGo_of_lt d (by omega)]
  | succ n ih =>
    intro p d h
    by_cases h64 : 64 ≤ p.length
    · have hsplit : 64 * (p.length / 64) = 64 + 64 * ((p.drop 64).length / 64) := by
        simp only [List.length_drop]
        omega
      rw [hsplit, List.take_add]
      have hlen : (p.take 64 ++ ((p.drop 64).take (64 * ((p.drop 64).length / 64)))).length
          = 64 + ((p.drop 64).take (64 * ((p.drop 64).length / 64))).length := by
        simp
        omega
      rw [blockGo_step d (by omega), blockGo_step d h64]
      have htake : (p.take 64 ++ (p.drop 64).take (64 * ((p.drop 64).length / 64))).take 64
          = p.take 64 := by
        rw [List.take_append_of_le_length (by simp; omega)]
        simp
      have hdrop : (p.take 64 ++ (p.drop 64).take (64 * ((p.drop 64).length / 64))).drop 64
          = (p.drop 64).take (64 * ((p.drop 64).length / 64)) :=
        List.drop_left' (by simp; omega)
      rw [compressOne_congr d htake, hdrop]
      exact ih (p.drop 64) _ (by simp; omega)
    · rw [Nat.div_eq_of_lt (by omega), Nat.mul_zero]
      have h0 : (p.take 0).length < 64 := by simp
      rw [blockGo_of_lt d h0, blockGo_of_lt d (by omega)]

/-- Splitting the loop at a multiple-of-64 boundary. -/
theorem blockGo_append : ∀ (n : Nat) (a : List Nat), a.length ≤ n → 64 ∣ a.length →
    ∀ (b : List Nat) (d : Digest), blockGo d (a ++ b) = blockGo (blockGo d a) b := by
  intro n
  induction n with
  | zero =>
    intro a h _ b d
    have h0 : a = [] := by
      cases a with
      | nil => rfl
      | cons y ys => simp at h
    subst h0
    have h1 : ([] : List Nat).length < 64 := by simp
    rw [List.nil_append, blockGo_of_lt d h1]
  | succ n ih =>
    intro a h hdvd b d
    by_cases h64 : 64 ≤ a.length
    · rw [blockGo_step d (by simp; omega), blockGo_step d h64]
      have htake : (a ++ b).take 64 = a.take 64 := by
        rw [List.take_append_eq_append_take, (by omega : 64 - a.length = 0)]
        simp
      have hdrop : (a ++ b).drop 64 = a.drop 64 ++ b := by
        rw [List.drop_append_eq_append_drop, (by omega : 64 - a.length = 0)]
        simp
      rw [compressOne_congr d htake, hdrop]
      apply ih (a.drop 64) (by simp; omega)
      rcases hdvd with ⟨c, hc⟩
      exact ⟨c - 1, by simp [hc]; omega⟩
    · have h0 : a = [] := by
        rcases hdvd with ⟨c, hc⟩
        cases c with
        | zero => simpa using List.eq_nil_of_length_eq_zero (by omega)
        | succ c => omega
      subst h0
      have h1 : ([] : List Nat).length < 64 := by simp
      rw [List.nil_append, blockGo_of_lt d h1]
/-! ## Characterization of `write` -/

theorem setX_x (e : Digest) (v : List Nat) : (setX e v).x = v := rfl

theorem setX_setX (e : Digest) (v w : List Nat) : setX (setX e v) w = setX e w := rfl

theorem setX_self (e : Digest) (v : List Nat) (h : e.x = v) : setX e v = e := by
  cases e
  cases h
  rfl

theorem setX_congr {A B : Digest} {v w : List Nat} (hAB : A = B) (hvw : v = w) :
    setX A v = setX B w := by rw [hAB, hvw]

theorem writePhase23_nil (d : Digest) : writePhase23 d [] = d := by
  simp [writePhase23]

/-- On a state with an empty buffer, phases two and three compress the maximal
complete-block prefix and buffer the remainder. -/
theorem writePhase23_char (d : Digest) (p : List Nat) (hd : d.x = []) :
    writePhase23 d p = setX (blockGo d p) (p.drop (64 * (p.length / 64))) := by
  simp only [writePhase23]
  by_cases h64 : 64 ≤ p.length
  · rw [if_pos h64]
    have hn : p.length - p.length % 64 = 64 * (p.length / 64) := by omega
    rw [hn, blockGo_take p.length p d le_rfl]
    by_cases hr : 0 < (p.drop (64 * (p.length / 64))).length
    · rw [if_pos hr]
    · rw [if_neg hr]
      have hnil : p.drop (64 * (p.length / 64)) = [] :=
        List.eq_nil_of_length_eq_zero (by omega)
      rw [hnil]
      exact (setX_self _ _ (by rw [blockGo_x]; exact hd)).symm
  · rw [if_neg h64]
    have h0 : 64 * (p.length / 64) = 0 := by
      have hq : p.length / 64 = 0 := Nat.div_eq_of_lt (by omega)
      omega
    rw [blockGo_of_lt d (by omega), h0, List.drop_zero]
    by_cases hp : 0 < p.length
    · rw [if_pos hp]
    · rw [if_neg hp]
      have hpn : p = [] := List.eq_nil_of_length_eq_zero (by omega)
      rw [hpn]
      exact (setX_self _ _ (by rw [hd])).symm

/-- Full characterization of `Write`: all complete 64-byte blocks of
buffer-plus-input are compressed in order, the remainder is the new buffer. -/
theorem write_char (d : Digest) (p : List Nat) (hx : d.x.length < 64) :
    write d p = setX (blockGo d (d.x ++ p))
      ((d.x ++ p).drop (64 * ((d.x.length + p.length) / 64))) := by
  by_cases h0 : 0 < d.x.length
  · simp only [write, if_pos h0]
    by_cases hfill : 64 - d.x.length ≤ p.length
    · have hn : min p.length (64 - d.x.length) = 64 - d.x.length := min_eq_right hfill
      rw [hn]
      have hlen1 : (setX d (d.x ++ p.take (64 - d.x.length))).x.length = 64 := by
        rw [setX_x]
        simp only [List.length_append, List.length_take]
        omega
      rw [if_pos hlen1]
      have hxa : (setX d (d.x ++ p.take (64 - d.x.length))).x
          = d.x ++ p.take (64 - d.x.length) := rfl
      rw [hxa, blockGo_setX, setX_setX]
      have e2 : blockGo d (d.x ++ p.take (64 - d.x.length))
          = compressOne d (d.x ++ p.take (64 - d.x.length)) :=
        blockGo_single d (by simp only [List.length_append, List.length_take]; omega)
      rw [e2]
      rw [writePhase23_char _ _ rfl, blockGo_setX, setX_setX]
      have e3 : blockGo (compressOne d (d.x ++ p.take (64 - d.x.length)))
            (p.drop (64 - d.x.length))
          = blockGo d (d.x ++ p) := by
        have e4 : d.x ++ p = (d.x ++ p.take (64 - d.x.length)) ++ p.drop (64 - d.x.length) := by
          rw [List.append_assoc, List.take_append_drop]
        rw [e4, blockGo_append ((d.x ++ p.take (64 - d.x.length)).length) _ le_rfl
          (by simp only [List.length_append, List.length_take]; omega) _ d]
        rw [e2]
      have e5 : (p.drop (64 - d.x.length)).drop
            (64 * ((p.drop (64 - d.x.length)).length / 64))
          = (d.x ++ p).drop (64 * ((d.x.length + p.length) / 64)) := by
        have e6 : d.x ++ p = (d.x ++ p.take (64 - d.x.length)) ++ p.drop (64 - d.x.length) := by
          rw [List.append_assoc, List.take_append_drop]
        rw [e6, List.drop_append_eq_append_drop]
        have hl1 : (d.x ++ p.take (64 - d.x.length)).length = 64 := by
          simp only [List.length_append, List.length_take]
          omega
        have hl2 : 64 * ((d.x.length + p.length) / 64)
            = 64 + 64 * ((p.drop (64 - d.x.length)).length / 64) := by
          simp only [List.length_drop]
          omega
        rw [hl1, hl2]
        have hl3 : (d.x ++ p.take (64 - d.x.length)).drop
            (64 + 64 * ((p.drop (64 - d.x.length)).length / 64)) = [] :=
          List.drop_eq_nil_of_le (by rw [hl1]; omega)
        rw [hl3, List.nil_append]
        congr 1
        omega
      exact setX_congr e3 e5
    · have hn : min p.length (64 - d.x.length) = p.length := min_eq_left (by omega)
      rw [hn, List.take_length]
      have hlen1 : (setX d (d.x ++ p)).x.length ≠ 64 := by
        rw [setX_x]
        simp only [List.length_append]
        omega
      rw [if_neg hlen1, List.drop_length, writePhase23_nil]
      have e1 : blockGo d (d.x ++ p) = d :=
        blockGo_of_lt d (by simp only [List.length_append]; omega)
      rw [e1]
      have e2 : 64 * ((d.x.length + p.length) / 64) = 0 := by
        have hq : (d.x.length + p.length) / 64 = 0 := Nat.div_eq_of_lt (by omega)
        omega
      rw [e2, List.drop_zero]
  · simp only [write, if_neg h0]
    have hd : d.x = [] := List.eq_nil_of_length_eq_zero (by omega)
    rw [writePhase23_char d p hd]
    rw [hd, List.nil_append, List.length_nil, Nat.zero_add]
/-! ## Derived facts about `write` -/

theorem setX_t (e : Digest) (v : List Nat) : (setX e v).t = e.t := rfl

theorem setX_hashSize (e : Digest) (v : List Nat) : (setX e v).hashSize = e.hashSize := rfl

theorem setX_nullt (e : Digest) (v : List Nat) : (setX e v).nullt = e.nullt := rfl

/-- A `Write` that does not fill the buffer only grows the buffer. -/
theorem write_small (d : Digest) (p : List Nat) (h : d.x.length + p.length < 64) :
    write d p = setX d (d.x ++ p) := by
  rw [write_char d p (by omega)]
  rw [blockGo_of_lt d (by simp only [List.length_append]; omega)]
  have h1 : (d.x.length + p.length) / 64 = 0 := Nat.div_eq_of_lt h
  rw [h1, Nat.mul_zero, List.drop_zero]

/-- A `Write` that exactly fills the buffer triggers exactly one compression
and leaves the buffer empty. -/
theorem write_fill (d : Digest) (p : List Nat) (hx : d.x.length < 64)
    (h : d.x.length + p.length = 64) :
    write d p = setX (compressOne d (d.x ++ p)) [] := by
  rw [write_char d p hx, h]
  have h1 : (64 : Nat) / 64 = 1 := by norm_num
  rw [h1, Nat.mul_one]
  have hd : (d.x ++ p).drop 64 = [] :=
    List.drop_eq_nil_of_le (by simp only [List.length_append]; omega)
  rw [hd]
  exact setX_congr (blockGo_single d (by simp only [List.length_append]; omega)) rfl

theorem write_nil (d : Digest) (hx : d.x.length < 64) : write d [] = d := by
  rw [write_small d [] (by simp; omega), List.append_nil]
  exact setX_self _ _ rfl

theorem write_x_length (d : Digest) (p : List Nat) (hx : d.x.length < 64) :
    (write d p).x.length = (d.x.length + p.length) % 64 := by
  rw [write_char d p hx, setX_x, List.length_drop, List.length_append]
  omega

theorem write_hashSize (d : Digest) (p : List Nat) (hx : d.x.length < 64) :
    (write d p).hashSize = d.hashSize := by
  rw [write_char d p hx]
  exact blockGo_hashSize _ _

theorem write_nullt (d : Digest) (p : List Nat) (hx : d.x.length < 64) :
    (write d p).nullt = d.nullt := by
  rw [write_char d p hx]
  exact blockGo_nullt _ _

/-- Appending across two `Write` calls is the same as one `Write` of the
concatenation. -/
theorem write_append (d : Digest) (p q : List Nat) (hx : d.x.length < 64) :
    write (write d p) q = write d (p ++ q) := by
  have hx1 : (write d p).x.length < 64 := by
    rw [write_x_length d p hx]
    omega
  rw [write_char _ q hx1, write_char d p hx, write_char d (p ++ q) hx]
  rw [setX_x, blockGo_setX, setX_setX]
  set L := d.x.length + p.length with hL
  set K := 64 * (L / 64) with hK
  set R := (d.x ++ p).drop K with hR
  have hRlen : R.length = L % 64 := by
    rw [hR, List.length_drop, List.length_append]
    omega
  have hcore : blockGo (blockGo d (d.x ++ p)) (R ++ q) = blockGo d (d.x ++ (p ++ q)) := by
    have htk : blockGo d ((d.x ++ p).take K) = blockGo d (d.x ++ p) := by
      have := blockGo_take (d.x ++ p).length (d.x ++ p) d le_rfl
      rw [List.length_append] at this
      exact this
    rw [← htk, ← blockGo_append ((d.x ++ p).take K).length _ le_rfl
      (by rw [List.length_take, List.length_append]; exact ⟨L / 64, by omega⟩) _ d]
    congr 1
    have e0 : (d.x ++ p).take K ++ R = d.x ++ p := by
      rw [hR]
      exact List.take_append_drop K (d.x ++ p)
    conv_rhs => rw [← List.append_assoc, ← e0, List.append_assoc]
  have e0 : (d.x ++ p).take K ++ R = d.x ++ p := by
    rw [hR]
    exact List.take_append_drop K (d.x ++ p)
  have hbuf : (R ++ q).drop (64 * ((R.length + q.length) / 64))
      = (d.x ++ (p ++ q)).drop (64 * ((d.x.length + (p ++ q).length) / 64)) := by
    have e6 : d.x ++ (p ++ q) = (d.x ++ p).take K ++ (R ++ q) := by
      conv_lhs => rw [← List.append_assoc, ← e0, List.append_assoc]
    rw [e6]
    conv_rhs => rw [List.drop_append_eq_append_drop]
    have hl1 : ((d.x ++ p).take K).length = K := by
      rw [List.length_take, List.length_append]
      omega
    have hl2 : 64 * ((d.x.length + (p ++ q).length) / 64)
        = K + 64 * ((R.length + q.length) / 64) := by
      rw [List.length_append, hRlen, hK, hL]
      omega
    rw [hl1, hl2]
    have hl3 : ((d.x ++ p).take K).drop (K + 64 * ((R.length + q.length) / 64)) = [] :=
      List.drop_eq_nil_of_le (by rw [hl1]; omega)
    rw [hl3, List.nil_append]
    congr 1
    omega
  exact setX_congr hcore hbuf

/-- Folding `Write` over a list of chunks equals one `Write` of the flattening. -/
theorem foldl_write (chunks : List (List Nat)) : ∀ (d : Digest), d.x.length < 64 →
    List.foldl write d chunks = write d chunks.flatten := by
  induction chunks with
  | nil =>
    intro d hx
    rw [List.foldl_nil, List.flatten_nil, write_nil d hx]
  | cons c cs ih =>
    intro d hx
    rw [List.foldl_cons, List.flatten_cons]
    rw [ih (write d c) (by rw [write_x_length d c hx]; omega)]
    exact write_append d c cs.flatten hx

/-- Counter/buffer bookkeeping: a `Write` adds exactly `8 * |p|` to
`t + 8 * |buffer|` modulo 2^64. -/
theorem write_t_len (d : Digest) (p : List Nat) (hx : d.x.length < 64) :
    (write d p).t + 8 * (write d p).x.length
      ≡ d.t + 8 * d.x.length + 8 * p.length [MOD M64] := by
  rw [write_char d p hx, setX_x, setX_t]
  have h1 : (blockGo d (d.x ++ p)).t ≡ d.t + 512 * ((d.x ++ p).length / 64) [MOD M64] :=
    blockGo_t (d.x ++ p).length (d.x ++ p) d le_rfl
  have h2 : ((d.x ++ p).drop (64 * ((d.x.length + p.length) / 64))).length
      = (d.x.length + p.length) % 64 := by
    rw [List.length_drop, List.length_append]
    omega
  rw [h2]
  have h3 := Nat.ModEq.add_right (8 * ((d.x.length + p.length) % 64)) h1
  have h4 : d.t + 512 * ((d.x ++ p).length / 64) + 8 * ((d.x.length + p.length) % 64)
      = d.t + 8 * d.x.length + 8 * p.length := by
    rw [List.length_append]
    omega
  rw [h4] at h3
  exact h3
/-! ## Characterization of the finalization branches -/

theorem setT_x (e : Digest) (v : Nat) : (setT e v).x = e.x := rfl

theorem setT_t (e : Digest) (v : Nat) : (setT e v).t = v := rfl

theorem setT_hashSize (e : Digest) (v : Nat) : (setT e v).hashSize = e.hashSize := rfl

theorem setNullt_x (e : Digest) (b : Bool) : (setNullt e b).x = e.x := rfl

theorem setNullt_t (e : Digest) (b : Bool) : (setNullt e b).t = e.t := rfl

theorem setNullt_hashSize (e : Digest) (b : Bool) : (setNullt e b).hashSize = e.hashSize := rfl

theorem be64_length (l : Nat) : (be64 l).length = 8 := rfl

theorem padList_take_length (n : Nat) (h : n ≤ 64) : (padList.take n).length = n := by
  rw [List.length_take]
  simp [padList]
  omega

/-- The `nx == 55` branch as the spec describes it: counter back 8 bits, one
buffered domain byte (`0x80` for 224-bit, `0x81` for 256-bit), counter back
64 more bits for the length field, then exactly one compression, of
`buffer ++ domain byte ++ length field`. -/
def finalizeAt55 (d : Digest) : Digest :=
  let lenB := be64 ((d.t + (d.x.length <<< 3)) % M64)
  let db : Nat := if d.hashSize = 224 then 0x80 else 0x81
  let d1 := setX (setT d ((d.t + (M64 - 8)) % M64)) (d.x ++ [db])
  let d2 := setT d1 ((d1.t + (M64 - 64)) % M64)
  setX (compressOne d2 ((d.x ++ [db]) ++ lenB)) []

/-- `checkSum` on a state with exactly 55 buffered bytes is the exact-fit
branch: one domain byte, the length field, and exactly one compression. -/
theorem checkSum_at55 (d : Digest) (h55 : d.x.length = 55) :
    checkSumFin d = finalizeAt55 d := by
  unfold checkSumFin checkSumState finalizeAt55
  simp only [h55, reduceIte, setT_x, setT_t, setX_x, setX_t]
  rw [setT_hashSize]
  by_cases h224 : d.hashSize = 224
  · rw [if_pos h224, if_pos h224]
    have e1 := write_small (setT d ((d.t + (M64 - 8)) % M64)) [128]
      (by rw [setT_x, h55]; norm_num)
    rw [e1]
    rw [setT_x, setX_t, setT_t]
    have e2 := write_fill (setT (setX (setT d ((d.t + (M64 - 8)) % M64)) (d.x ++ [128]))
        (((d.t + (M64 - 8)) % M64 + (M64 - 64)) % M64)) (be64 ((d.t + 55 <<< 3) % M64))
      (by rw [setT_x, setX_x]; simp [h55])
      (by rw [setT_x, setX_x, be64_length]; simp [h55])
    rw [setT_x, setX_x] at e2
    rw [e2]
  · rw [if_neg h224, if_neg h224]
    have e1 := write_small (setT d ((d.t + (M64 - 8)) % M64)) [129]
      (by rw [setT_x, h55]; norm_num)
    rw [e1]
    rw [setT_x, setX_t, setT_t]
    have e2 := write_fill (setT (setX (setT d ((d.t + (M64 - 8)) % M64)) (d.x ++ [129]))
        (((d.t + (M64 - 8)) % M64 + (M64 - 64)) % M64)) (be64 ((d.t + 55 <<< 3) % M64))
      (by rw [setT_x, setX_x]; simp [h55])
      (by rw [setT_x, setX_x, be64_length]; simp [h55])
    rw [setT_x, setX_x] at e2
    rw [e2]

/-- The `nx >= 56` branch as the code actually behaves: discount the counter
by the `64 - nx` completing bytes, compress the completed block once; counter
back 440 bits, buffer 55 zero bytes (`pad[1:56]` — all zero), force the
skip-counter flag; buffer the terminator byte, counter back 8 then 64 bits;
and compress a second time when the 8-byte length field arrives. -/
def finalizeHigh (d : Digest) : Digest :=
  let lenB := be64 ((d.t + (d.x.length <<< 3)) % M64)
  let tb : Nat := if d.hashSize = 224 then 0x00 else 0x01
  let d1 := setX (compressOne (setT d ((d.t + (M64 - (512 - (d.x.length <<< 3)))) % M64))
    (d.x ++ padList.take (64 - d.x.length))) []
  let d2 := setNullt (setX (setT d1 ((d1.t + (M64 - 440)) % M64)) (List.replicate 55 0)) true
  let d3 := setX d2 (List.replicate 55 0 ++ [tb])
  let d4 := setT d3 ((d3.t + (M64 - 8)) % M64)
  let d5 := setT d4 ((d4.t + (M64 - 64)) % M64)
  setX (compressOne d5 ((List.replicate 55 0 ++ [tb]) ++ lenB)) []

/-- The `nx >= 56` branch as the claim states it, with the second, all-padding
feed beginning with a `0x80` byte instead of being all zero. -/
def finalizeHighClaim (d : Digest) : Digest :=
  let lenB := be64 ((d.t + (d.x.length <<< 3)) % M64)
  let tb : Nat := if d.hashSize = 224 then 0x00 else 0x01
  let d1 := setX (compressOne (setT d ((d.t + (M64 - (512 - (d.x.length <<< 3)))) % M64))
    (d.x ++ padList.take (64 - d.x.length))) []
  let d2 := setNullt (setX (setT d1 ((d1.t + (M64 - 440)) % M64))
    (0x80 :: List.replicate 54 0)) true
  let d3 := setX d2 ((0x80 :: List.replicate 54 0) ++ [tb])
  let d4 := setT d3 ((d3.t + (M64 - 8)) % M64)
  let d5 := setT d4 ((d4.t + (M64 - 64)) % M64)
  setX (compressOne d5 (((0x80 :: List.replicate 54 0) ++ [tb]) ++ lenB)) []

/-- `checkSum` on a state with 56–63 buffered bytes is the two-compression
branch with an all-zero second padding feed. -/
theorem checkSum_high (d : Digest) (h56 : 56 ≤ d.x.length) (h63 : d.x.length ≤ 63) :
    checkSumFin d = finalizeHigh d := by
  unfold checkSumFin checkSumState finalizeHigh
  dsimp only
  rw [if_neg (by omega : ¬ d.x.length = 55), if_neg (by omega : ¬ d.x.length < 55)]
  have e1 := write_fill (setT d ((d.t + (M64 - (512 - (d.x.length <<< 3)))) % M64))
    (padList.take (64 - d.x.length))
    (by rw [setT_x]; omega)
    (by rw [setT_x, padList_take_length _ (by omega)]; omega)
  rw [setT_x] at e1
  rw [e1]
  have hz : (padList.drop 1).take 55 = List.replicate 55 0 := by
    simp [padList]
  rw [hz]
  rw [setX_t, compressOne_t, setT_t]
  have e2 := write_small (setT (setX (compressOne (setT d ((d.t + (M64 - (512 - (d.x.length <<< 3)))) % M64))
      (d.x ++ padList.take (64 - d.x.length))) [])
    ((((d.t + (M64 - (512 - (d.x.length <<< 3)))) % M64 + 512) % M64 + (M64 - 440)) % M64))
    (List.replicate 55 0) (by rw [setT_x, setX_x]; simp)
  rw [setT_x, setX_x, List.nil_append] at e2
  rw [e2]
  rw [setNullt_hashSize, setX_hashSize, setT_hashSize, setX_hashSize,
    compressOne_hashSize, setT_hashSize]
  by_cases h224 : d.hashSize = 224
  · rw [if_pos h224, if_pos h224]
    have e3 := write_small (setNullt (setX (setT (setX (compressOne (setT d ((d.t + (M64 - (512 - (d.x.length <<< 3)))) % M64))
        (d.x ++ padList.take (64 - d.x.length))) [])
      ((((d.t + (M64 - (512 - (d.x.length <<< 3)))) % M64 + 512) % M64 + (M64 - 440)) % M64))
      (List.replicate 55 0)) true) [0]
      (by rw [setNullt_x, setX_x]; simp)
    rw [setNullt_x, setX_x] at e3
    rw [e3]
    rw [setX_t, setNullt_t, setX_t, setT_t]
    rw [setT_t]
    have e4 := write_fill (setT (setT (setX (setNullt (setX (setT (setX (compressOne (setT d ((d.t + (M64 - (512 - (d.x.length <<< 3)))) % M64))
          (d.x ++ padList.take (64 - d.x.length))) [])
        ((((d.t + (M64 - (512 - (d.x.length <<< 3)))) % M64 + 512) % M64 + (M64 - 440)) % M64))
        (List.replicate 55 0)) true) (List.replicate 55 0 ++ [0]))
      (((((d.t + (M64 - (512 - (d.x.length <<< 3)))) % M64 + 512) % M64 + (M64 - 440)) % M64 + (M64 - 8)) % M64))
      ((((((d.t + (M64 - (512 - (d.x.length <<< 3)))) % M64 + 512) % M64 + (M64 - 440)) % M64 + (M64 - 8)) % M64 + (M64 - 64)) % M64))
      (be64 ((d.t + (d.x.length <<< 3)) % M64))
      (by rw [setT_x, setT_x, setX_x]; simp) (by rw [setT_x, setT_x, setX_x, be64_length]; simp)
    rw [setT_x, setT_x, setX_x] at e4
    rw [e4]
  · rw [if_neg h224, if_neg h224]
    have e3 := write_small (setNullt (setX (setT (setX (compressOne (setT d ((d.t + (M64 - (512 - (d.x.length <<< 3)))) % M64))
        (d.x ++ padList.take (64 - d.x.length))) [])
      ((((d.t + (M64 - (512 - (d.x.length <<< 3)))) % M64 + 512) % M64 + (M64 - 440)) % M64))
      (List.replicate 55 0)) true) [1]
      (by rw [setNullt_x, setX_x]; simp)
    rw [setNullt_x, setX_x] at e3
    rw [e3]
    rw [setX_t, setNullt_t, setX_t, setT_t]
    rw [setT_t]
    have e4 := write_fill (setT (setT (setX (setNullt (setX (setT (setX (compressOne (setT d ((d.t + (M64 - (512 - (d.x.length <<< 3)))) % M64))
          (d.x ++ padList.take (64 - d.x.length))) [])
        ((((d.t + (M64 - (512 - (d.x.length <<< 3)))) % M64 + 512) % M64 + (M64 - 440)) % M64))
        (List.replicate 55 0)) true) (List.replicate 55 0 ++ [1]))
      (((((d.t + (M64 - (512 - (d.x.length <<< 3)))) % M64 + 512) % M64 + (M64 - 440)) % M64 + (M64 - 8)) % M64))
      ((((((d.t + (M64 - (512 - (d.x.length <<< 3)))) % M64 + 512) % M64 + (M64 - 440)) % M64 + (M64 - 8)) % M64 + (M64 - 64)) % M64))
      (be64 ((d.t + (d.x.length <<< 3)) % M64))
      (by rw [setT_x, setT_x, setX_x]; simp) (by rw [setT_x, setT_x, setX_x, be64_length]; simp)
    rw [setT_x, setT_x, setX_x] at e4
    rw [e4]
/-! ## The table-driven reference round schedule -/

/-- The published 10-row permutation table of BLAKE; row `r % 10`, entry `i`. -/
def sigma (r i : Nat) : Nat :=
  (([[0, 1, 2, 3, 4, 5, 6, 7, 8, 9, 10, 11, 12, 13, 14, 15],
     [14, 10, 4, 8, 9, 15, 13, 6, 1, 12, 0, 2, 11, 7, 5, 3],
     [11, 8, 12, 0, 5, 2, 15, 13, 10, 14, 3, 6, 7, 1, 9, 4],
     [7, 9, 3, 1, 13, 12, 11, 14, 2, 6, 5, 10, 4, 0, 15, 8],
     [9, 0, 5, 7, 2, 4, 10, 15, 14, 1, 11, 12, 6, 8, 3, 13],
     [2, 12, 6, 10, 0, 11, 8, 3, 4, 13, 7, 5, 15, 14, 1, 9],
     [12, 5, 1, 15, 14, 13, 4, 10, 0, 7, 6, 3, 9, 2, 8, 11],
     [13, 11, 7, 14, 12, 1, 3, 9, 5, 0, 15, 4, 8, 6, 2, 10],
     [6, 15, 14, 9, 11, 3, 0, 8, 12, 2, 13, 7, 1, 4, 10, 5],
     [10, 2, 8, 4, 7, 6, 1, 5, 15, 11, 9, 14, 3, 12, 13, 0]] :
       List (List Nat)).getD (r % 10) []).getD i 0

/-- The G mixing operation on a 4-tuple `(a, b, c, d)` with message-word
indices `(x, y)`, following the spec's operation order and its rotate-right
amounts 16, 12, 8, 7:
`a += (m[x] xor c[y]); a += b; d ^= a; d >>>= 16; c += d; b ^= c; b >>>= 12`
and then the mirrored second half with `(m[y] xor c[x])` and rotations 8, 7. -/
def gMix (m : Nat → Nat) (x y : Nat) (a b c d : Nat) : Nat × Nat × Nat × Nat :=
  let a := add32 a ((m x) ^^^ cst y)
  let a := add32 a b
  let d := rot16 (d ^^^ a)
  let c := add32 c d
  let b := rot12 (b ^^^ c)
  let a := add32 a ((m y) ^^^ cst x)
  let a := add32 a b
  let d := rot8 (d ^^^ a)
  let c := add32 c d
  let b := rot7 (b ^^^ c)
  (a, b, c, d)

/-- One table-driven reference round: four column G operations then four
diagonal G operations, message/constant indices from `sigma` row `r % 10`. -/
def gRound (m : Nat → Nat) (r : Nat) (v : V16) : V16 :=
  let (v0, v4, v8, v12) := gMix m (sigma r 0) (sigma r 1) v.v0 v.v4 v.v8 v.v12
  let (v1, v5, v9, v13) := gMix m (sigma r 2) (sigma r 3) v.v1 v.v5 v.v9 v.v13
  let (v2, v6, v10, v14) := gMix m (sigma r 4) (sigma r 5) v.v2 v.v6 v.v10 v.v14
  let (v3, v7, v11, v15) := gMix m (sigma r 6) (sigma r 7) v.v3 v.v7 v.v11 v.v15
  let (v0, v5, v10, v15) := gMix m (sigma r 8) (sigma r 9) v0 v5 v10 v15
  let (v1, v6, v11, v12) := gMix m (sigma r 10) (sigma r 11) v1 v6 v11 v12
  let (v2, v7, v8, v13) := gMix m (sigma r 12) (sigma r 13) v2 v7 v8 v13
  let (v3, v4, v9, v14) := gMix m (sigma r 14) (sigma r 15) v3 v4 v9 v14
  ⟨v0, v1, v2, v3, v4, v5, v6, v7, v8, v9, v10, v11, v12, v13, v14, v15⟩

/-- Fourteen table-driven rounds, round `r` (0-based) using permutation row
`r % 10`. -/
def refRounds (m : Nat → Nat) (v : V16) : V16 :=
  (List.range 14).foldl (fun w r => gRound m r w) v

/-- The claim's description of the working-state initialization: `v[0..7]`
from the chain value, `v[8..11]` the first four constants XOR the salt,
`v[12..15]` the next four constants, with the counter XORed into the low
words `v12, v13` and the high words `v14, v15` exactly when the skip-counter
flag is clear. -/
def initV (d : Digest) (t : Nat) : V16 :=
  ⟨d.h0, d.h1, d.h2, d.h3, d.h4, d.h5, d.h6, d.h7,
   cst 0 ^^^ d.s0, cst 1 ^^^ d.s1, cst 2 ^^^ d.s2, cst 3 ^^^ d.s3,
   if d.nullt then cst 4 else cst 4 ^^^ (t % M32),
   if d.nullt then cst 5 else cst 5 ^^^ (t % M32),
   if d.nullt then cst 6 else cst 6 ^^^ ((t >>> 32) % M32),
   if d.nullt then cst 7 else cst 7 ^^^ ((t >>> 32) % M32)⟩

/-- The table-driven reference compression: counter bumped by 512 before use,
`initV` initialization, fourteen `gRound`s, and the combine step
`h[k] ^= v[k] ^ v[k+8] ^ s[k mod 4]`. -/
def refCompress (d : Digest) (p : List Nat) : Digest :=
  let t := (d.t + 512) % M64
  let m := mword (p.take 64)
  let v := refRounds m (initV d t)
  { d with
    t := t,
    h0 := d.h0 ^^^ (v.v0 ^^^ v.v8 ^^^ d.s0),
    h1 := d.h1 ^^^ (v.v1 ^^^ v.v9 ^^^ d.s1),
    h2 := d.h2 ^^^ (v.v2 ^^^ v.v10 ^^^ d.s2),
    h3 := d.h3 ^^^ (v.v3 ^^^ v.v11 ^^^ d.s3),
    h4 := d.h4 ^^^ (v.v4 ^^^ v.v12 ^^^ d.s0),
    h5 := d.h5 ^^^ (v.v5 ^^^ v.v13 ^^^ d.s1),
    h6 := d.h6 ^^^ (v.v6 ^^^ v.v14 ^^^ d.s2),
    h7 := d.h7 ^^^ (v.v7 ^^^ v.v15 ^^^ d.s3) }

theorem round1_eq (m : Nat → Nat) (v : V16) : round1 m v = gRound m 0 v := rfl

theorem round2_eq (m : Nat → Nat) (v : V16) : round2 m v = gRound m 1 v := rfl

theorem round3_eq (m : Nat → Nat) (v : V16) : round3 m v = gRound m 2 v := rfl

theorem round4_eq (m : Nat → Nat) (v : V16) : round4 m v = gRound m 3 v := rfl

theorem round5_eq (m : Nat → Nat) (v : V16) : round5 m v = gRound m 4 v := rfl

theorem round6_eq (m : Nat → Nat) (v : V16) : round6 m v = gRound m 5 v := rfl

theorem round7_eq (m : Nat → Nat) (v : V16) : round7 m v = gRound m 6 v := rfl

theorem round8_eq (m : Nat → Nat) (v : V16) : round8 m v = gRound m 7 v := rfl

theorem round9_eq (m : Nat → Nat) (v : V16) : round9 m v = gRound m 8 v := rfl

theorem round10_eq (m : Nat → Nat) (v : V16) : round10 m v = gRound m 9 v := rfl

theorem round11_eq (m : Nat → Nat) (v : V16) : round11 m v = gRound m 10 v := rfl

theorem round12_eq (m : Nat → Nat) (v : V16) : round12 m v = gRound m 11 v := rfl

theorem round13_eq (m : Nat → Nat) (v : V16) : round13 m v = gRound m 12 v := rfl

theorem round14_eq (m : Nat → Nat) (v : V16) : round14 m v = gRound m 13 v := rfl

/-- The unrolled rounds compute exactly the fourteen table-driven rounds. -/
theorem roundsOf_eq_refRounds (m : Nat → Nat) (v : V16) : roundsOf m v = refRounds m v := by
  have hr : List.range 14 = [0, 1, 2, 3, 4, 5, 6, 7, 8, 9, 10, 11, 12, 13] := rfl
  rw [refRounds, hr]
  simp only [List.foldl_cons, List.foldl_nil]
  rw [roundsOf, round1_eq, round2_eq, round3_eq, round4_eq, round5_eq, round6_eq,
    round7_eq, round8_eq, round9_eq, round10_eq, round11_eq, round12_eq, round13_eq,
    round14_eq]

/-- The unrolled compression function is extensionally the table-driven one. -/
theorem compressOne_eq_refCompress (d : Digest) (p : List Nat) :
    compressOne d p = refCompress d p := by
  unfold compressOne refCompress initV
  dsimp only
  rw [roundsOf_eq_refRounds]
/-! ## Preservation of the output size, reachable states, salt packing -/

theorem writePhase23_hashSize (d : Digest) (p : List Nat) :
    (writePhase23 d p).hashSize = d.hashSize := by
  unfold writePhase23
  by_cases h64 : 64 ≤ p.length
  · rw [if_pos h64]
    dsimp only
    split
    · rw [setX_hashSize, blockGo_hashSize]
    · rw [blockGo_hashSize]
  · rw [if_neg h64]
    dsimp only
    split
    · rw [setX_hashSize]
    · rfl

/-- `Write` preserves the output size from any state. -/
theorem write_hashSize_all (d : Digest) (p : List Nat) :
    (write d p).hashSize = d.hashSize := by
  unfold write
  by_cases h0 : 0 < d.x.length
  · rw [if_pos h0]
    dsimp only
    split
    · rw [writePhase23_hashSize, setX_hashSize, blockGo_hashSize, setX_hashSize]
    · rw [writePhase23_hashSize, setX_hashSize]
  · rw [if_neg h0]
    exact writePhase23_hashSize d p

/-- Finalization preserves the output size from any state. -/
theorem checkSumState_hashSize (d : Digest) (lenB : List Nat) :
    (checkSumState d lenB).hashSize = d.hashSize := by
  unfold checkSumState
  dsimp only
  rw [write_hashSize_all, setT_hashSize]
  by_cases h55 : d.x.length = 55
  · rw [if_pos h55]
    split
    · rw [write_hashSize_all, setT_hashSize]
    · rw [write_hashSize_all, setT_hashSize]
  · rw [if_neg h55, setT_hashSize]
    by_cases h54 : d.x.length < 55
    · rw [if_pos h54]
      by_cases h0 : d.x.length = 0
      · rw [if_pos h0]
        split
        · rw [write_hashSize_all, write_hashSize_all, setT_hashSize, setNullt_hashSize]
        · rw [write_hashSize_all, write_hashSize_all, setT_hashSize, setNullt_hashSize]
      · rw [if_neg h0]
        split
        · rw [write_hashSize_all, write_hashSize_all, setT_hashSize]
        · rw [write_hashSize_all, write_hashSize_all, setT_hashSize]
    · rw [if_neg h54]
      split
      · rw [write_hashSize_all, setNullt_hashSize, write_hashSize_all, setT_hashSize,
          write_hashSize_all, setT_hashSize]
      · rw [write_hashSize_all, setNullt_hashSize, write_hashSize_all, setT_hashSize,
          write_hashSize_all, setT_hashSize]

theorem checkSumFin_hashSize (d : Digest) :
    (checkSumFin d).hashSize = d.hashSize := checkSumState_hashSize d _

theorem reset_x (d : Digest) : (reset d).x = [] := by
  unfold reset
  split <;> rfl

theorem reset_hashSize (d : Digest) : (reset d).hashSize = d.hashSize := by
  unfold reset
  split <;> rfl

theorem newSaltD_hashSize (s : List Nat) (e : Digest) (h : newSaltD s = some e) :
    e.hashSize = 256 := by
  unfold newSaltD at h
  cases hw : setSaltWords s with
  | none => rw [hw] at h; simp at h
  | some w =>
    rw [hw] at h
    simp only [Option.map_some'] at h
    rw [← Option.some.injEq .. |>.mp h]
    rfl

theorem new224SaltD_hashSize (s : List Nat) (e : Digest) (h : new224SaltD s = some e) :
    e.hashSize = 224 := by
  unfold new224SaltD at h
  cases hw : setSaltWords s with
  | none => rw [hw] at h; simp at h
  | some w =>
    rw [hw] at h
    simp only [Option.map_some'] at h
    rw [← Option.some.injEq .. |>.mp h]
    rfl

theorem newSaltD_x (s : List Nat) (e : Digest) (h : newSaltD s = some e) :
    e.x = [] := by
  unfold newSaltD at h
  cases hw : setSaltWords s with
  | none => rw [hw] at h; simp at h
  | some w =>
    rw [hw] at h
    simp only [Option.map_some'] at h
    rw [← Option.some.injEq .. |>.mp h]
    rfl

theorem new224SaltD_x (s : List Nat) (e : Digest) (h : new224SaltD s = some e) :
    e.x = [] := by
  unfold new224SaltD at h
  cases hw : setSaltWords s with
  | none => rw [hw] at h; simp at h
  | some w =>
    rw [hw] at h
    simp only [Option.map_some'] at h
    rw [← Option.some.injEq .. |>.mp h]
    rfl

/-- Every reachable state carries one of the two output sizes. -/
theorem reachable_hashSize (d : Digest) (h : Reachable d) :
    d.hashSize = 256 ∨ d.hashSize = 224 := by
  induction h with
  | new => exact Or.inl rfl
  | new224 => exact Or.inr rfl
  | newSalt s e he => exact Or.inl (newSaltD_hashSize s e he)
  | new224Salt s e he => exact Or.inr (new224SaltD_hashSize s e he)
  | write e p _ ih => rw [write_hashSize_all]; exact ih
  | reset e _ ih => rw [reset_hashSize]; exact ih

/-- Every reachable state buffers fewer than 64 bytes. -/
theorem reachable_x_lt (d : Digest) (h : Reachable d) : d.x.length < 64 := by
  induction h with
  | new => simp [newD]
  | new224 => simp [new224D]
  | newSalt s e he => rw [newSaltD_x s e he]; simp
  | new224Salt s e he => rw [new224SaltD_x s e he]; simp
  | write e p _ ih => rw [write_x_length e p ih]; omega
  | reset e _ _ => rw [reset_x]; simp
/-! ## Big-endian packing of the salt -/

theorem shiftLeft_lor_eq_add (a b k : Nat) (hb : b < 2 ^ k) :
    (a <<< k) ||| b = a * 2 ^ k + b := by
  apply Nat.eq_of_testBit_eq
  intro j
  rw [Nat.testBit_lor, Nat.testBit_shiftLeft]
  have hp : (0:Nat) < 2 ^ k := Nat.pos_pow_of_pos k (by norm_num)
  rcases lt_or_ge j k with hj | hj
  · have h1 : decide (j ≥ k) = false := by simp; omega
    rw [h1, Bool.false_and, Bool.false_or, Nat.testBit_to_div_mod, Nat.testBit_to_div_mod]
    have h2 : a * 2 ^ k + b = b + (a * 2 ^ (k - j)) * 2 ^ j := by
      rw [Nat.mul_assoc, ← pow_add]
      have h0 : k - j + j = k := by omega
      rw [h0]; ring
    rw [h2, Nat.add_mul_div_right _ _ (Nat.pos_pow_of_pos j (by norm_num))]
    have h5 : (2:Nat) ^ (k - j) = 2 * 2 ^ (k - j - 1) := by
      rw [← pow_succ']
      congr 1
      omega
    have h4 : a * 2 ^ (k - j) % 2 = 0 := by
      rw [h5, show a * (2 * 2 ^ (k - j - 1)) = 2 * (a * 2 ^ (k - j - 1)) by ring]
      exact Nat.mul_mod_right 2 _
    rw [decide_eq_decide]
    omega
  · have h1 : decide (j ≥ k) = true := by simp; omega
    rw [h1, Bool.true_and]
    have hbz : b.testBit j = false := by
      apply Nat.testBit_lt_two_pow
      exact lt_of_lt_of_le hb (Nat.pow_le_pow_right (by norm_num) hj)
    rw [hbz, Bool.or_false, Nat.testBit_to_div_mod, Nat.testBit_to_div_mod]
    have h2 : a * 2 ^ k + b = b + 2 ^ k * a := by ring
    have h3 : (2:Nat) ^ j = 2 ^ k * 2 ^ (j - k) := by
      rw [← pow_add]
      congr 1
      omega
    rw [h2, h3, ← Nat.div_div_eq_div_mul, Nat.add_mul_div_left _ _ hp, Nat.div_eq_of_lt hb,
      Nat.zero_add]

/-- Serializing one big-endian-packed word recovers the four bytes. -/
theorem be32_pack (b0 b1 b2 b3 : Nat) (h0 : b0 < 256) (h1 : b1 < 256)
    (h2 : b2 < 256) (h3 : b3 < 256) :
    be32 ((b0 <<< 24) ||| (b1 <<< 16) ||| (b2 <<< 8) ||| b3) = [b0, b1, b2, b3] := by
  have p24 : (2:Nat) ^ 24 = 16777216 := by norm_num
  have p16 : (2:Nat) ^ 16 = 65536 := by norm_num
  have p8 : (2:Nat) ^ 8 = 256 := by norm_num
  have e1 : (b0 <<< 24) ||| (b1 <<< 16) = (b0 * 256 + b1) <<< 16 := by
    rw [shiftLeft_lor_eq_add b0 (b1 <<< 16) 24
      (by rw [Nat.shiftLeft_eq, p16, p24]; omega)]
    rw [Nat.shiftLeft_eq, Nat.shiftLeft_eq, p16, p24]
    omega
  have e2 : ((b0 * 256 + b1) <<< 16) ||| (b2 <<< 8) = ((b0 * 256 + b1) * 256 + b2) <<< 8 := by
    rw [shiftLeft_lor_eq_add (b0 * 256 + b1) (b2 <<< 8) 16
      (by rw [Nat.shiftLeft_eq, p8, p16]; omega)]
    rw [Nat.shiftLeft_eq, Nat.shiftLeft_eq, p8, p16]
    omega
  have e3 : (((b0 * 256 + b1) * 256 + b2) <<< 8) ||| b3
      = ((b0 * 256 + b1) * 256 + b2) * 256 + b3 := by
    rw [shiftLeft_lor_eq_add ((b0 * 256 + b1) * 256 + b2) b3 8 (by rw [p8]; omega)]
    rw [p8]
  rw [e1, e2, e3]
  unfold be32
  simp only [Nat.shiftRight_eq_div_pow, List.cons.injEq, and_true]
  rw [p24, p16, p8]
  refine ⟨?_, ?_, ?_, ?_⟩ <;> omega

/-- An in-range index read with `getD` returns an element of the list. -/
theorem getD_lt (s : List Nat) (i : Nat) (hi : i < s.length) (c : Nat)
    (hb : ∀ b ∈ s, b < c) : s.getD i 0 < c := by
  rw [List.getD_eq_getElem s 0 hi]
  exact hb _ (List.getElem_mem hi)
/-! ## Salt round-trip helper -/

theorem salt_roundtrip (s : List Nat) (hl : s.length = 16) (hb : ∀ b ∈ s, b < 256)
    (w : Nat × Nat × Nat × Nat) (hw : setSaltWords s = some w) :
    be32 w.1 ++ be32 w.2.1 ++ be32 w.2.2.1 ++ be32 w.2.2.2 = s := by
  rcases s with _ | ⟨a0, s⟩
  · simp at hl
  rcases s with _ | ⟨a1, s⟩
  · simp at hl
  rcases s with _ | ⟨a2, s⟩
  · simp at hl
  rcases s with _ | ⟨a3, s⟩
  · simp at hl
  rcases s with _ | ⟨a4, s⟩
  · simp at hl
  rcases s with _ | ⟨a5, s⟩
  · simp at hl
  rcases s with _ | ⟨a6, s⟩
  · simp at hl
  rcases s with _ | ⟨a7, s⟩
  · simp at hl
  rcases s with _ | ⟨a8, s⟩
  · simp at hl
  rcases s with _ | ⟨a9, s⟩
  · simp at hl
  rcases s with _ | ⟨a10, s⟩
  · simp at hl
  rcases s with _ | ⟨a11, s⟩
  · simp at hl
  rcases s with _ | ⟨a12, s⟩
  · simp at hl
  rcases s with _ | ⟨a13, s⟩
  · simp at hl
  rcases s with _ | ⟨a14, s⟩
  · simp at hl
  rcases s with _ | ⟨a15, s⟩
  · simp at hl
  have hs : s = [] := by
    simp only [List.length_cons] at hl
    exact List.eq_nil_of_length_eq_zero (by omega)
  subst hs
  unfold setSaltWords at hw
  rw [if_pos hl] at hw
  have hw2 := Option.some.injEq .. |>.mp hw
  rw [← hw2]
  dsimp only
  have b0 : a0 < 256 := hb a0 (by simp)
  have b1 : a1 < 256 := hb a1 (by simp)
  have b2 : a2 < 256 := hb a2 (by simp)
  have b3 : a3 < 256 := hb a3 (by simp)
  have b4 : a4 < 256 := hb a4 (by simp)
  have b5 : a5 < 256 := hb a5 (by simp)
  have b6 : a6 < 256 := hb a6 (by simp)
  have b7 : a7 < 256 := hb a7 (by simp)
  have b8 : a8 < 256 := hb a8 (by simp)
  have b9 : a9 < 256 := hb a9 (by simp)
  have b10 : a10 < 256 := hb a10 (by simp)
  have b11 : a11 < 256 := hb a11 (by simp)
  have b12 : a12 < 256 := hb a12 (by simp)
  have b13 : a13 < 256 := hb a13 (by simp)
  have b14 : a14 < 256 := hb a14 (by simp)
  have b15 : a15 < 256 := hb a15 (by simp)
  show be32 ((a0 <<< 24) ||| (a1 <<< 16) ||| (a2 <<< 8) ||| a3) ++
      be32 ((a4 <<< 24) ||| (a5 <<< 16) ||| (a6 <<< 8) ||| a7) ++
      be32 ((a8 <<< 24) ||| (a9 <<< 16) ||| (a10 <<< 8) ||| a11) ++
      be32 ((a12 <<< 24) ||| (a13 <<< 16) ||| (a14 <<< 8) ||| a15)
    = [a0, a1, a2, a3, a4, a5, a6, a7, a8, a9, a10, a11, a12, a13, a14, a15]
  rw [be32_pack a0 a1 a2 a3 b0 b1 b2 b3, be32_pack a4 a5 a6 a7 b4 b5 b6 b7,
    be32_pack a8 a9 a10 a11 b8 b9 b10 b11, be32_pack a12 a13 a14 a15 b12 b13 b14 b15]
  rfl
/-! ## The claims -/

/-- The claim's description of the working-state initialization and counter
update, with the code's own round sequence: counter bumped by 512 before use,
`initV` initialization, and the combine step folding `v` into the chain
value. -/
def initCompress (d : Digest) (p : List Nat) : Digest :=
  let t := (d.t + 512) % M64
  let m := mword (p.take 64)
  let v := roundsOf m (initV d t)
  { d with
    t := t,
    h0 := d.h0 ^^^ (v.v0 ^^^ v.v8 ^^^ d.s0),
    h1 := d.h1 ^^^ (v.v1 ^^^ v.v9 ^^^ d.s1),
    h2 := d.h2 ^^^ (v.v2 ^^^ v.v10 ^^^ d.s2),
    h3 := d.h3 ^^^ (v.v3 ^^^ v.v11 ^^^ d.s3),
    h4 := d.h4 ^^^ (v.v4 ^^^ v.v12 ^^^ d.s0),
    h5 := d.h5 ^^^ (v.v5 ^^^ v.v13 ^^^ d.s1),
    h6 := d.h6 ^^^ (v.v6 ^^^ v.v14 ^^^ d.s2),
    h7 := d.h7 ^^^ (v.v7 ^^^ v.v15 ^^^ d.s3) }

/-- C1. Chunking invariance of the streaming interface: from any state whose
buffer is within the `Write` invariant (every reachable state, by C9), a
sequence of `Write` calls with arbitrary chunks — empty and single-byte chunks
included — leaves the same state as one `Write` of the concatenation, and
finalizing yields the same digest. The initial state is arbitrary, so this
covers both the 256-bit and the 224-bit variants. -/
theorem claim1_chunking_invariance (d : Digest) (chunks : List (List Nat))
    (hx : d.x.length < 64) :
    List.foldl write d chunks = write d chunks.flatten ∧
    checkSum (List.foldl write d chunks) = checkSum (write d chunks.flatten) := by
  have h := foldl_write chunks d hx
  exact ⟨h, by rw [h]⟩

theorem claim1_chunking_invariance_witness :
    newD.x.length < 64 ∧
    (List.foldl write newD [[], [1], [2, 3]] = write newD [[], [1], [2, 3]].flatten ∧
      checkSum (List.foldl write newD [[], [1], [2, 3]])
        = checkSum (write newD [[], [1], [2, 3]].flatten)) :=
  ⟨by decide, claim1_chunking_invariance newD [[], [1], [2, 3]] (by decide)⟩

/-- C2 (amended). Two-compression padding branch: on a state with 56–63
buffered bytes, finalization feeds `64 - nx` completing bytes (counter
discounted by the same amount), compressing once; then buffers 55 bytes of
all-zero padding — the source feeds `pad[1:56]`, which is entirely zero, not
padding beginning with `0x80` as the claim states — with the skip-counter flag
forced true, feeds the 1-byte terminator (`0x01` for 256-bit, `0x00` for
224-bit), and the 8-byte length field then triggers the second compression. -/
theorem claim2_two_compression_branch (d : Digest) (h56 : 56 ≤ d.x.length)
    (h63 : d.x.length ≤ 63) :
    checkSumFin d = finalizeHigh d := checkSum_high d h56 h63

theorem claim2_two_compression_branch_witness :
    56 ≤ (setX newD (List.replicate 56 1)).x.length ∧
    (setX newD (List.replicate 56 1)).x.length ≤ 63 ∧
    checkSumFin (setX newD (List.replicate 56 1))
      = finalizeHigh (setX newD (List.replicate 56 1)) :=
  ⟨by decide, by decide, claim2_two_compression_branch _ (by decide) (by decide)⟩

/-- C2, refuted as stated: on a concrete state with 56 buffered bytes, the
finalization result differs from the claimed behaviour in which the second,
all-padding feed begins with a `0x80` byte (`finalizeHighClaim`). -/
theorem claim2_first_padding_byte_counterexample :
    (setX newD (List.replicate 56 1)).x.length = 56 ∧
    checkSumFin (setX newD (List.replicate 56 1))
      ≠ finalizeHighClaim (setX newD (List.replicate 56 1)) := by
  refine ⟨rfl, ?_⟩
  decide

/-- C3. Length-field correctness: starting from a fresh counter and an empty
buffer, after any sequence of `Write` calls the finalization feeds, after the
domain/terminator byte, the big-endian encoding of 8 times the total number
of bytes written (mod 2^64) — the source serializes `l = d.t + nx<<3` before
any backward counter adjustment, so the field is unaffected by them, also
when the adjustments wrap the 64-bit counter (the empty message). -/
theorem claim3_length_field (d0 : Digest) (chunks : List (List Nat))
    (ht : d0.t = 0) (hx : d0.x = []) :
    checkSum (List.foldl write d0 chunks) =
      serializeOut (checkSumState (List.foldl write d0 chunks)
        (be64 ((8 * (chunks.map List.length).sum) % M64))) := by
  have hx64 : d0.x.length < 64 := by rw [hx]; simp
  rw [foldl_write chunks d0 hx64]
  unfold checkSum checkSumFin
  have key : ((write d0 chunks.flatten).t + ((write d0 chunks.flatten).x.length <<< 3)) % M64
      = (8 * (chunks.map List.length).sum) % M64 := by
    have h1 := write_t_len d0 chunks.flatten hx64
    rw [ht, hx] at h1
    have h2 : (0:Nat) + 8 * ([] : List Nat).length + 8 * chunks.flatten.length
        = 8 * (chunks.map List.length).sum := by
      simp [List.length_flatten]
    rw [h2] at h1
    have h3 : (write d0 chunks.flatten).t + ((write d0 chunks.flatten).x.length <<< 3)
        = (write d0 chunks.flatten).t + 8 * (write d0 chunks.flatten).x.length := by
      rw [Nat.shiftLeft_eq]
      ring
    rw [h3]
    exact h1
  rw [key]

theorem claim3_length_field_witness :
    newD.t = 0 ∧ newD.x = [] ∧
    checkSum (List.foldl write newD [[7], [8, 9]]) =
      serializeOut (checkSumState (List.foldl write newD [[7], [8, 9]])
        (be64 ((8 * ([[7], [8, 9]].map List.length).sum) % M64))) :=
  ⟨rfl, rfl, claim3_length_field newD [[7], [8, 9]] rfl rfl⟩

/-- C4. Compression-function counter and salt injection: each compression
bumps the 64-bit counter by exactly 512 before use, and the working state is
initialized as `initV` spells out — `v0..v7` the chain value, `v8..v11` the
first four constants XOR the salt, `v12..v15` the next four constants with
the counter's low 32 bits XORed into `v12, v13` and its high 32 bits into
`v14, v15` exactly when the skip-counter flag is clear. -/
theorem claim4_counter_and_salt_injection (d : Digest) (p : List Nat) :
    (compressOne d p).t = (d.t + 512) % M64 ∧ compressOne d p = initCompress d p := by
  refine ⟨compressOne_t d p, ?_⟩
  unfold compressOne initCompress initV
  dsimp only

/-- C5. Round-schedule refinement: the fully unrolled block function equals
the table-driven reference `refCompress` — fourteen `gRound`s of eight G
operations (four columns, four diagonals) with rotations 16, 12, 8, 7, round
`r` (1-based) drawing its message/constant pairing from permutation row
`(r-1) mod 10` of `sigma`, finishing with the combine
`h[k] ^= v[k] ^ v[k+8] ^ s[k mod 4]` — and the permutation table is 10-cyclic,
so rounds 11–14 reuse the rows of rounds 1–4. -/
theorem claim5_round_schedule :
    (∀ (d : Digest) (p : List Nat), compressOne d p = refCompress d p) ∧
    (∀ r i, sigma (r + 10) i = sigma r i) := by
  refine ⟨compressOne_eq_refCompress, fun r i => ?_⟩
  unfold sigma
  rw [Nat.add_mod_right]

/-- C6. Finalization does not corrupt the original state: `Sum` takes its
receiver by value (`sumOp` returns the digest together with the caller's
unchanged state), so the state survives, a second `Sum` returns the same
digest, and a `Write` after a `Sum` behaves exactly as if the `Sum` had never
happened. -/
theorem claim6_sum_frame (d : Digest) (inp p : List Nat) :
    sumOp d inp = (sum d inp, d) ∧
    (sumOp d inp).2 = d ∧
    (sumOp (sumOp d inp).2 inp).1 = (sumOp d inp).1 ∧
    write (sumOp d inp).2 p = write d p :=
  ⟨rfl, rfl, rfl, rfl⟩

/-- C7. Exact-fit padding branch: on a state with exactly 55 buffered bytes,
finalization is `finalizeAt55` — counter back 8 bits, the single domain byte
(`0x80` for 224-bit, `0x81` for 256-bit), counter back 64 more bits, and the
8-byte length field completing exactly one compression. -/
theorem claim7_exact_fit (d : Digest) (h55 : d.x.length = 55) :
    checkSumFin d = finalizeAt55 d := checkSum_at55 d h55

theorem claim7_exact_fit_witness :
    (setX newD (List.replicate 55 0)).x.length = 55 ∧
    checkSumFin (setX newD (List.replicate 55 0))
      = finalizeAt55 (setX newD (List.replicate 55 0)) :=
  ⟨rfl, claim7_exact_fit _ rfl⟩

/-- C8. Salt-length precondition: salted construction fails (the modelled
panic, `none`) exactly when the salt length is not 16; with 16 in-range bytes
the four salt words are the big-endian packing of the bytes — serializing
them back yields the salt unchanged, so nothing is truncated or padded.
(`write` and `checkSum` are total functions of the embedding: update and
finalize have no failure case.) -/
theorem claim8_salt_length (s : List Nat) (hb : ∀ b ∈ s, b < 256) :
    ((newSaltD s).isNone ↔ s.length ≠ 16) ∧
    ((new224SaltD s).isNone ↔ s.length ≠ 16) ∧
    (∀ e, newSaltD s = some e →
      be32 e.s0 ++ be32 e.s1 ++ be32 e.s2 ++ be32 e.s3 = s) ∧
    (∀ e, new224SaltD s = some e →
      be32 e.s0 ++ be32 e.s1 ++ be32 e.s2 ++ be32 e.s3 = s) := by
  by_cases hl : s.length = 16
  · refine ⟨?_, ?_, ?_, ?_⟩
    · unfold newSaltD setSaltWords
      rw [if_pos hl]
      simp [hl]
    · unfold new224SaltD setSaltWords
      rw [if_pos hl]
      simp [hl]
    · intro e he
      unfold newSaltD at he
      cases hw : setSaltWords s with
      | none => rw [hw] at he; simp at he
      | some w =>
        rw [hw] at he
        simp only [Option.map_some'] at he
        rw [← Option.some.injEq .. |>.mp he]
        dsimp only
        exact salt_roundtrip s hl hb w hw
    · intro e he
      unfold new224SaltD at he
      cases hw : setSaltWords s with
      | none => rw [hw] at he; simp at he
      | some w =>
        rw [hw] at he
        simp only [Option.map_some'] at he
        rw [← Option.some.injEq .. |>.mp he]
        dsimp only
        exact salt_roundtrip s hl hb w hw
  · refine ⟨?_, ?_, ?_, ?_⟩
    · unfold newSaltD setSaltWords
      rw [if_neg hl]
      simp [hl]
    · unfold new224SaltD setSaltWords
      rw [if_neg hl]
      simp [hl]
    · intro e he
      unfold newSaltD setSaltWords at he
      rw [if_neg hl] at he
      simp at he
    · intro e he
      unfold new224SaltD setSaltWords at he
      rw [if_neg hl] at he
      simp at he

theorem claim8_salt_length_witness :
    (∀ b ∈ [0, 1, 2, 3, 4, 5, 6, 7, 8, 9, 10, 11, 12, 13, 14, 15], b < 256) ∧
    (((newSaltD [0, 1, 2, 3, 4, 5, 6, 7, 8, 9, 10, 11, 12, 13, 14, 15]).isNone
        ↔ ([0, 1, 2, 3, 4, 5, 6, 7, 8, 9, 10, 11, 12, 13, 14, 15] : List Nat).length ≠ 16) ∧
      ((new224SaltD [0, 1, 2, 3, 4, 5, 6, 7, 8, 9, 10, 11, 12, 13, 14, 15]).isNone
        ↔ ([0, 1, 2, 3, 4, 5, 6, 7, 8, 9, 10, 11, 12, 13, 14, 15] : List Nat).length ≠ 16) ∧
      (∀ e, newSaltD [0, 1, 2, 3, 4, 5, 6, 7, 8, 9, 10, 11, 12, 13, 14, 15] = some e →
        be32 e.s0 ++ be32 e.s1 ++ be32 e.s2 ++ be32 e.s3
          = [0, 1, 2, 3, 4, 5, 6, 7, 8, 9, 10, 11, 12, 13, 14, 15]) ∧
      (∀ e, new224SaltD [0, 1, 2, 3, 4, 5, 6, 7, 8, 9, 10, 11, 12, 13, 14, 15] = some e →
        be32 e.s0 ++ be32 e.s1 ++ be32 e.s2 ++ be32 e.s3
          = [0, 1, 2, 3, 4, 5, 6, 7, 8, 9, 10, 11, 12, 13, 14, 15])) :=
  ⟨by decide, claim8_salt_length [0, 1, 2, 3, 4, 5, 6, 7, 8, 9, 10, 11, 12, 13, 14, 15]
    (by decide)⟩

/-- C9. Buffer-size invariant: every reachable state buffers strictly fewer
than 64 bytes, and `Write` re-establishes the bound for every input length. -/
theorem claim9_buffer_invariant (d : Digest) (hr : Reachable d) :
    d.x.length < 64 ∧ ∀ p, (write d p).x.length < 64 := by
  have hx := reachable_x_lt d hr
  refine ⟨hx, fun p => ?_⟩
  rw [write_x_length d p hx]
  omega

theorem claim9_buffer_invariant_witness :
    newD.x.length < 64 ∧ ∀ p, (write newD p).x.length < 64 :=
  claim9_buffer_invariant newD Reachable.new

/-- C10. `Sum` appends rather than replaces: on every reachable state, the
result starts with the input bytes, followed by exactly 28 digest bytes
(224-bit) or 32 (256-bit); the 224-bit tail is the big-endian serialization
of the first seven chain words — not a truncation of a 32-byte result
carrying extra data. -/
theorem claim10_sum_appends (d : Digest) (inp : List Nat) (hr : Reachable d) :
    (sum d inp).take inp.length = inp ∧
    (sum d inp).length = inp.length + (if d.hashSize = 224 then 28 else 32) ∧
    (d.hashSize = 224 →
      (sum d inp).drop inp.length = ((wordsOf (checkSumFin d)).take 7).flatMap be32) ∧
    (d.hashSize = 256 →
      (sum d inp).drop inp.length = (wordsOf (checkSumFin d)).flatMap be32) := by
  rcases reachable_hashSize d hr with h | h
  · have hsum : sum d inp = inp ++ (wordsOf (checkSumFin d)).flatMap be32 := by
      unfold sum
      rw [if_neg (by rw [h]; decide)]
      unfold checkSum serializeOut
      rw [checkSumFin_hashSize, h]
      congr 1
    refine ⟨?_, ?_, ?_, ?_⟩
    · rw [hsum, List.take_left]
    · rw [hsum, List.length_append, if_neg (by rw [h]; decide),
        show ((wordsOf (checkSumFin d)).flatMap be32).length = 32 from rfl]
    · intro hc
      rw [hc] at h
      exact absurd h (by decide)
    · intro _
      rw [hsum, List.drop_left]
  · have hsum : sum d inp = inp ++ ((wordsOf (checkSumFin d)).take 7).flatMap be32 := by
      unfold sum
      rw [if_pos (by rw [h]; decide)]
      unfold checkSum serializeOut
      rw [checkSumFin_hashSize, h]
      congr 1
    refine ⟨?_, ?_, ?_, ?_⟩
    · rw [hsum, List.take_left]
    · rw [hsum, List.length_append, if_pos h,
        show (((wordsOf (checkSumFin d)).take 7).flatMap be32).length = 28 from rfl]
    · intro _
      rw [hsum, List.drop_left]
    · intro hc
      rw [hc] at h
      exact absurd h (by decide)

theorem claim10_sum_appends_witness :
    (sum new224D [3, 4]).take ([3, 4] : List Nat).length = [3, 4] ∧
    (sum new224D [3, 4]).length
      = ([3, 4] : List Nat).length + (if new224D.hashSize = 224 then 28 else 32) ∧
    (new224D.hashSize = 224 →
      (sum new224D [3, 4]).drop ([3, 4] : List Nat).length
        = ((wordsOf (checkSumFin new224D)).take 7).flatMap be32) ∧
    (new224D.hashSize = 256 →
      (sum new224D [3, 4]).drop ([3, 4] : List Nat).length
        = (wordsOf (checkSumFin new224D)).flatMap be32) :=
  claim10_sum_appends new224D [3, 4] Reachable.new224

end Blake256
